import Mathlib

/-!
Verification of the text-reconstruction and field-segmentation pipeline of
`server/pdf/parse_pdf.py` (BetTrackerPro).  The Python source is shallowly
embedded: lines of text are lists of characters (`Str`), Python floats parsed
from decimal literals are represented exactly as scaled decimals (`PyNum`,
mantissa / 10 ^ exponent), and every helper mirrors one regex or string
operation of the source.  All definitions are executable and reduce in the
kernel (structural recursion only; bounded scans use an explicit fuel equal
to the length of the scanned text, which always suffices because every step
consumes at least one character).
-/

set_option maxRecDepth 100000
set_option maxHeartbeats 4000000

/-- Lines of text, as sequences of Unicode code points (Python `str`). -/
abbrev Str := List Char

/-- Coerce a Lean string literal to the character-list representation. -/
def txt (s : String) : Str := s.data

/-- ASCII decimal digit, as matched by the regex class `\d` on this input. -/
def ehDigito (c : Char) : Bool := 48 ≤ c.toNat && c.toNat ≤ 57

/-- Python whitespace (`str.strip` / `str.split` / regex `\s`). -/
def ehEspaco (c : Char) : Bool :=
  c = ' ' || c = '\t' || c = '\n' || c = '\r' || c = '\x0b' || c = '\x0c'

/-- ASCII uppercase letter (regex class `[A-Z]`). -/
def ehMaiusculaAscii (c : Char) : Bool := 65 ≤ c.toNat && c.toNat ≤ 90

/-- ASCII letter (regex class `[A-Za-z]`). -/
def ehLetraAscii (c : Char) : Bool :=
  (65 ≤ c.toNat && c.toNat ≤ 90) || (97 ≤ c.toNat && c.toNat ≤ 122)

/-- Python `str.lower`, restricted to the characters that occur in the
program's data: ASCII letters plus the Cyrillic capital Es (U+0421) that
appears in the gazetteer entry `MiСasino`. -/
def minusculaChar (c : Char) : Char :=
  if 65 ≤ c.toNat && c.toNat ≤ 90 then Char.ofNat (c.toNat + 32)
  else if c.toNat = 0x421 then Char.ofNat 0x441
  else c

/-- Python `str.lower` over a whole line. -/
def minuscula (s : Str) : Str := s.map minusculaChar

/-- Python `str.isupper` for a single character, restricted to the
characters that occur in the program's data (ASCII plus Cyrillic Es). -/
def ehMaiusculaPy (c : Char) : Bool := ehMaiusculaAscii c || c.toNat = 0x421

/-- Word character for the regex metacharacter `\b` (Python `\w`): ASCII
alphanumerics and underscore plus the Unicode letters that occur in the
program's data (Latin-1/Latin-extended letters, ordinal indicators, and
Cyrillic).  The symbol and punctuation code points used by the slips
(`●`, `○`, `〉`, `–`, `≥`, `≤`, U+F35D) are not word characters. -/
def ehCaractereDePalavra (c : Char) : Bool :=
  (48 ≤ c.toNat && c.toNat ≤ 57) || (65 ≤ c.toNat && c.toNat ≤ 90) ||
  (97 ≤ c.toNat && c.toNat ≤ 122) || c.toNat = 95 ||
  (0xC0 ≤ c.toNat && c.toNat ≤ 0x24F && c.toNat ≠ 0xD7 && c.toNat ≠ 0xF7) ||
  (0x400 ≤ c.toNat && c.toNat ≤ 0x4FF) ||
  c.toNat = 0xAA || c.toNat = 0xBA

/-- Wordness for `\b` of an optional character; the ends of the string count as
non-word. -/
def ehPalavraOpt : Option Char → Bool
  | none => false
  | some c => ehCaractereDePalavra c

/-- Exclusive-or on `Bool`, spelled out. -/
def xorB (a b : Bool) : Bool := (a && !b) || (!a && b)

/-- Python `str.strip`. -/
def pyStrip (s : Str) : Str :=
  ((s.dropWhile ehEspaco).reverse.dropWhile ehEspaco).reverse

/-- Helper of `pySplit`: accumulates the current word (in reverse). -/
def pySplitGo : Str → Str → List Str
  | [], acc => if acc = [] then [] else [acc.reverse]
  | c :: r, acc =>
    if ehEspaco c then
      if acc = [] then pySplitGo r [] else acc.reverse :: pySplitGo r []
    else pySplitGo r (c :: acc)

/-- Python `str.split()` with no argument: split on whitespace runs,
discarding empty fields. -/
def pySplit (s : Str) : List Str := pySplitGo s []

/-- Python `alvo.find(agulha)`, as an `Option` (Python returns `-1` when the
needle is absent; the source only uses the position after an `in` test). -/
def findSub (agulha : Str) : Str → Option Nat
  | [] => if agulha = [] then some 0 else none
  | c :: r =>
    if agulha.isPrefixOf (c :: r) then some 0
    else (findSub agulha r).map (· + 1)

/-- Python `agulha in alvo` (substring containment). -/
def temSub (agulha alvo : Str) : Bool := (findSub agulha alvo).isSome

/-- Python `texto.replace(antigo, '', 1)`: removes the first occurrence of a
substring, if any (identity for the empty pattern, which never occurs). -/
def removerPrimeira (antigo texto : Str) : Str :=
  if antigo = [] then texto
  else match findSub antigo texto with
    | some i => texto.take i ++ texto.drop (i + antigo.length)
    | none => texto

/-- Fuelled kernel of `removerTodas`. -/
def removerTodasGo (antigo : Str) : Nat → Str → Str
  | 0, t => t
  | _ + 1, [] => []
  | f + 1, c :: r =>
    if antigo ≠ [] && antigo.isPrefixOf (c :: r) then
      removerTodasGo antigo f ((c :: r).drop antigo.length)
    else c :: removerTodasGo antigo f r

/-- Model of `re.sub` with a literal pattern and empty replacement: removes every
(leftmost, non-overlapping) occurrence of a substring. -/
def removerTodas (antigo texto : Str) : Str :=
  removerTodasGo antigo texto.length texto

/-- Model of `re.sub(r'\s+', ' ', ...)`: collapse whitespace runs to single spaces
(the Boolean flag records whether the previous character was whitespace). -/
def colapsarGo : Bool → Str → Str
  | _, [] => []
  | emEspaco, c :: r =>
    if ehEspaco c then
      if emEspaco then colapsarGo true r else ' ' :: colapsarGo true r
    else c :: colapsarGo false r

/-- Collapse whitespace runs to single spaces. -/
def colapsarEspacos (s : Str) : Str := colapsarGo false s

/-- Python `' '.join(palavras)`. -/
def juntarEspacos (palavras : List Str) : Str := List.intercalate [' '] palavras

/-!  ### Exact decimals standing in for Python floats

Numeric fields are produced by `float(...)` applied to decimal literals
captured by regexes.  They are modelled exactly as `man / 10 ^ exp`.  Value
comparisons cross-multiply, so `10.0` and `10.00` compare equal, exactly as
the corresponding floats do.  (Python float equality and the exact rational
equality agree on all decimal literals short enough to round-trip through
binary floating point, which covers the slips this parser consumes.) -/

structure PyNum where
  man : Int
  exp : Nat
deriving DecidableEq

/-- Value equality (`==` on Python floats). -/
def PyNum.veq (a b : PyNum) : Bool :=
  a.man * (10 : Int) ^ b.exp == b.man * (10 : Int) ^ a.exp

/-- Value order `≤`. -/
def PyNum.vle (a b : PyNum) : Bool :=
  decide (a.man * (10 : Int) ^ b.exp ≤ b.man * (10 : Int) ^ a.exp)

/-- Value order `<`. -/
def PyNum.vlt (a b : PyNum) : Bool :=
  decide (a.man * (10 : Int) ^ b.exp < b.man * (10 : Int) ^ a.exp)

/-- Python truthiness of a float (`if stake:`): nonzero. -/
def PyNum.naoZero (a : PyNum) : Bool := a.man ≠ 0

/-- Test for `abs(a - b) < 0.01`. -/
def PyNum.difMenorCentesimo (a b : PyNum) : Bool :=
  (a.man * (10 : Int) ^ b.exp - b.man * (10 : Int) ^ a.exp).natAbs * 100
    < 10 ^ (a.exp + b.exp)

/-- The rational value denoted by a `PyNum` (used only in statements). -/
def PyNum.toRat (a : PyNum) : ℚ := (a.man : ℚ) / (10 : ℚ) ^ a.exp

/-- Kernel of `pyFloat`: fold the digits, counting those after the dot. -/
def pyFloatGo : Str → Int → Bool → Nat → PyNum
  | [], acc, _, e => ⟨acc, e⟩
  | c :: r, acc, pontoVisto, e =>
    if c = '.' then pyFloatGo r acc true e
    else pyFloatGo r (acc * 10 + Int.ofNat (c.toNat - 48)) pontoVisto
      (if pontoVisto then e + 1 else e)

/-- Python `float(...)` on the decimal literals captured by the source's
regexes: optional sign, digits, optional dot, digits. -/
def pyFloat : Str → PyNum
  | [] => pyFloatGo [] 0 false 0
  | c :: r =>
    if c = '-' then ⟨-(pyFloatGo r 0 false 0).man, (pyFloatGo r 0 false 0).exp⟩
    else pyFloatGo (c :: r) 0 false 0

/-- Fuelled digit printer for `Nat` (most significant digit first). -/
def digitosNat : Nat → Nat → Str
  | 0, _ => []
  | f + 1, n =>
    if n < 10 then [Char.ofNat (48 + n)]
    else digitosNat f (n / 10) ++ [Char.ofNat (48 + n % 10)]

/-- Strip trailing decimal zeros (structural on the exponent). -/
def normalizarRepr : Int → Nat → Int × Nat
  | m, 0 => (m, 0)
  | m, e + 1 => if m % 10 == 0 then normalizarRepr (m / 10) e else (m, e + 1)

/-- Python `str(float)` for the exactly-representable decimals handled here:
shortest decimal form, always keeping one fractional digit (`100.0`,
`18.5`, `0.5`).  Used by the source as a literal search pattern
(`str(stake).replace('.', r'\.')`). -/
def reprFloat (a : PyNum) : Str :=
  let (m, e) := normalizarRepr a.man a.exp
  let digitos := digitosNat (m.natAbs + 1) m.natAbs
  let corpo :=
    if e = 0 then digitos ++ txt (".0")
    else
      let preenchido :=
        if digitos.length < e + 1 then
          List.replicate (e + 1 - digitos.length) '0' ++ digitos
        else digitos
      preenchido.take (preenchido.length - e) ++ '.' :: preenchido.drop (preenchido.length - e)
  if m < 0 then '-' :: corpo else corpo

/-!  ### Regex scans shared by the extractor (`processar_aposta_completa`) -/

/-- Try to match `\d+\.\d+` at the start of `s`; on success return the
matched literal and the rest of the string.  The greedy `\d+` runs are
forced: shortening them leaves a digit where `\.` or the end of the run is
required, so maximal runs are the only possible match. -/
def tentarDecimal (s : Str) : Option (Str × Str) :=
  if s.takeWhile ehDigito = [] then none
  else match s.drop (s.takeWhile ehDigito).length with
    | '.' :: r2 =>
      if r2.takeWhile ehDigito = [] then none
      else some (s.takeWhile ehDigito ++ '.' :: r2.takeWhile ehDigito,
                 r2.drop (r2.takeWhile ehDigito).length)
    | _ => none

/-- Fuelled kernel of `re.findall(r'\d+\.\d+', ...)`: scan left to right,
emitting each leftmost match and resuming just after it. -/
def findallDecGo : Nat → Str → List Str
  | 0, _ => []
  | _ + 1, [] => []
  | f + 1, c :: r =>
    match tentarDecimal (c :: r) with
    | some (m, resto) => m :: findallDecGo f resto
    | none => findallDecGo f r

/-- Python `re.findall(r'\d+\.\d+', texto)`. -/
def findallDec (s : Str) : List Str := findallDecGo s.length s

/-- Python `re.search(r'\d+\.\d+', ...)` as a Boolean (existence only). -/
def temDecimal : Str → Bool
  | [] => false
  | c :: r => (tentarDecimal (c :: r)).isSome || temDecimal r

/-- One position of `\d+\s+USD`: digit run, whitespace run, literal `USD`. -/
def intUSDAqui (s : Str) : Bool :=
  let d := s.takeWhile ehDigito
  d ≠ [] &&
    (let r := s.drop d.length
     let sp := r.takeWhile ehEspaco
     sp ≠ [] && (txt ("USD")).isPrefixOf (r.drop sp.length))

/-- Python `re.search(r'\d+\s+USD', ...)` as a Boolean. -/
def temIntUSD : Str → Bool
  | [] => false
  | c :: r => intUSDAqui (c :: r) || temIntUSD r

/-- Index of the first record-separator glyph (`re.search(r'[●○]')`,
source line 626). -/
def ehSimboloSeparador (c : Char) : Bool :=
  c = '●' || c = '○' || c.toNat = 0xF35D

/-- First index of a separator glyph. -/
def acharSimbolo : Str → Option Nat
  | [] => none
  | c :: r => if ehSimboloSeparador c then some 0 else (acharSimbolo r).map (· + 1)

/-- First index of a currency token (`re.search(r'(USD|BRL)')`). -/
def acharMoeda : Str → Option Nat
  | [] => none
  | c :: r =>
    if (txt ("USD")).isPrefixOf (c :: r) || (txt ("BRL")).isPrefixOf (c :: r) then some 0
    else (acharMoeda r).map (· + 1)

/-- Descriptive part of a leg text: text before the first separator glyph,
else before the first currency token, else the whole text (source lines
626-639; the first two branches strip the part). -/
def parteAntes (texto : Str) : Str :=
  match acharSimbolo texto with
  | some i => pyStrip (texto.take i)
  | none =>
    match acharMoeda texto with
    | some i => pyStrip (texto.take i)
    | none => texto

/-- The odd-selection loop (source lines 650-654): first value in
`[1.0, 50.0]` scanning the collected decimals from the end. -/
def acharOddRev : List Str → Option PyNum
  | [] => none
  | n :: r =>
    if (PyNum.mk 1 0).vle (pyFloat n) && (pyFloat n).vle (PyNum.mk 50 0) then
      some (pyFloat n)
    else acharOddRev r

/-- Extracted odd (source lines 644-657): scan the decimals of the
descriptive part from the end for a value in `[1.0, 50.0]`; if none
qualifies fall back to the last decimal; `None` when there are no decimals. -/
def oddExtraida (texto : Str) : Option PyNum :=
  match (findallDec (parteAntes texto)).reverse with
  | [] => none
  | ultimo :: resto =>
    match acharOddRev (ultimo :: resto) with
    | some q => some q
    | none => some (pyFloat ultimo)

/-- Pattern `\s+(USD|BRL)` at the start of `s` (tail of the stake pattern). -/
def moedaSegue (s : Str) : Bool :=
  let sp := s.takeWhile ehEspaco
  sp ≠ [] &&
    ((txt ("USD")).isPrefixOf (s.drop sp.length) ||
     (txt ("BRL")).isPrefixOf (s.drop sp.length))

/-- Try to match `(\d+\.?\d*)\s+(USD|BRL)` at the start of `s`, returning
group 1.  The greedy digit runs are forced (shortening them leaves a digit
where whitespace is required), and if the optional dot is taken but the tail
fails, dropping the dot cannot succeed either (the dot is not whitespace). -/
def tentarStake (s : Str) : Option Str :=
  let d1 := s.takeWhile ehDigito
  if d1 = [] then none
  else
    match s.drop d1.length with
    | '.' :: r2 =>
      let d2 := r2.takeWhile ehDigito
      if moedaSegue (r2.drop d2.length) then some (d1 ++ '.' :: d2) else none
    | r1 => if moedaSegue r1 then some d1 else none

/-- First match of the stake pattern anywhere in the text
(`re.findall(r'(\d+\.?\d*)\s+(USD|BRL)', ...)[0][0]`, source line 665). -/
def acharStake : Str → Option Str
  | [] => none
  | c :: r =>
    match tentarStake (c :: r) with
    | some g => some g
    | none => acharStake r

/-- Extracted stake (source lines 665-667). -/
def stakeExtraido (texto : Str) : Option PyNum := (acharStake texto).map pyFloat

/-- Primary profit extraction (source lines 674-683): when the stake is
truthy, find the first occurrence of `str(stake)` (a literal pattern after
escaping the dot) and take the last decimal after that match's end. -/
def profitPrimario (texto : Str) : Option PyNum :=
  match stakeExtraido texto with
  | none => none
  | some s0 =>
    if s0.naoZero then
      match findSub (reprFloat s0) texto with
      | some i =>
        match (findallDec (texto.drop (i + (reprFloat s0).length))).reverse with
        | [] => none
        | ultimo :: _ => some (pyFloat ultimo)
      | none => none
    else none

/-- Is `q` different from the optional value `o`?  (Python `num != stake`
with `stake` possibly `None`, which compares unequal to every float.) -/
def difereDoOpt (q : PyNum) : Option PyNum → Bool
  | none => true
  | some v => !(q.veq v)

/-- The fallback profit loop (source lines 686-691): scanning all decimals
of the text from the end, the first value exactly different from stake and
odd and below 1000. -/
def acharProfitRev (stake odd : Option PyNum) : List Str → Option PyNum
  | [] => none
  | n :: r =>
    if difereDoOpt (pyFloat n) stake && difereDoOpt (pyFloat n) odd &&
        (pyFloat n).vlt (PyNum.mk 1000 0) then
      some (pyFloat n)
    else acharProfitRev stake odd r

/-- Extracted profit (source lines 669-691): the primary value if truthy,
else the fallback scan, else whatever the primary path left (`None` or a
zero found by the primary path). -/
def profitExtraido (texto : Str) : Option PyNum :=
  if (match profitPrimario texto with | none => false | some q => q.naoZero) then
    profitPrimario texto
  else
    match acharProfitRev (stakeExtraido texto) (oddExtraida texto) (findallDec texto).reverse with
    | some q => some q
    | none => profitPrimario texto

/-!  ### Bet-type extraction (source lines 693-787) -/

/-- Keywords whose following number is kept in the bet type (source lines
704-705). -/
def palavrasChaveTipo : List String :=
  ["acima", "abaixo", "total", "over", "under", "mais", "menos",
   "primeiro", "segundo", "tempo", "extra", "1º", "2º"]

/-- Was the previous token a bet-type keyword?  (`palavras[i-1].lower()`
with `≥`/`≤` removed and stripped, then a substring test against each
keyword, source lines 713-716.) -/
def ehPalavraChaveTipo (ant : Str) : Bool :=
  let p := pyStrip ((minuscula ant).filter (fun c => c ≠ '≥' && c ≠ '≤'))
  palavrasChaveTipo.any (fun k => temSub k.data p)

/-- Python `re.match(r'^-?\d+\.?\d*$', palavra)`. -/
def ehNumeroToken (w : Str) : Bool :=
  let corpo := fun (s : Str) =>
    let d1 := s.takeWhile ehDigito
    d1 ≠ [] &&
      (match s.drop d1.length with
       | [] => true
       | '.' :: r2 => r2.all ehDigito
       | _ => false)
  match w with
  | '-' :: r => corpo r
  | s => corpo s

/-- Does the numeric token coincide (within 0.01) with a truthy extracted
value?  (`if (odd and abs(num - odd) < 0.01)`, source lines 728-733.) -/
def coincideComValor (q : PyNum) : Option PyNum → Bool
  | none => false
  | some v => v.naoZero && q.difMenorCentesimo v

/-- The token filter of the bet type (source lines 707-739); `ant` is the
previous token of the original token list. -/
def filtrarPalavras (odd stake profit : Option PyNum) : Option Str → List Str → List Str
  | _, [] => []
  | ant, w :: resto =>
    let demais := filtrarPalavras odd stake profit (some w) resto
    if w = txt ("USD") || w = txt ("BRL") then demais
    else
      if ehNumeroToken w then
        let q := pyFloat w
        let antChave := match ant with | none => false | some p => ehPalavraChaveTipo p
        if antChave then w :: demais
        else if coincideComValor q odd then demais
        else if coincideComValor q stake then demais
        else if coincideComValor q profit then demais
        else if q.vlt (PyNum.mk 0 0) then demais
        else w :: demais
      else w :: demais

/-- Model of `re.sub(r'[-–]\s*$', '', ...)`: drop one trailing dash (and trailing
whitespace after it), when present. -/
def removerTracoFinal (t : Str) : Str :=
  let rev := t.reverse
  let rev2 := rev.dropWhile ehEspaco
  match rev2 with
  | c :: r => if c = '-' || c = '–' then r.reverse else t
  | [] => t

/-- Try to match `\s*\([A-Z]{2}\)\s*` at the start of `s`, returning the
rest after the match (the greedy whitespace runs are forced). -/
def tentarSufixoPais (s : Str) : Option Str :=
  let sp := s.takeWhile ehEspaco
  match s.drop sp.length with
  | '(' :: a :: b :: ')' :: r =>
    if ehMaiusculaAscii a && ehMaiusculaAscii b then some (r.dropWhile ehEspaco) else none
  | _ => none

/-- Fuelled kernel of `removerSufixosPais`. -/
def removerSufixosPaisGo : Nat → Str → Str
  | 0, t => t
  | _ + 1, [] => []
  | f + 1, c :: r =>
    match tentarSufixoPais (c :: r) with
    | some resto => removerSufixosPaisGo f resto
    | none => c :: removerSufixosPaisGo f r

/-- Python `re.sub(r'\s*\([A-Z]{2}\)\s*', '', casa)` (source line 751). -/
def removerSufixosPais (casa : Str) : Str :=
  removerSufixosPaisGo casa.length casa

/-- Case-insensitive comparison of a text prefix against a literal pattern. -/
def coincideIgnoraCaixa (padrao t : Str) : Bool :=
  padrao.length ≤ t.length && minuscula (t.take padrao.length) = minuscula padrao

/-- Fuelled kernel of `removerPalavraLimitada`: `ant` is the original-text
character immediately before the current position (for the leading `\b`);
after a removal the scan resumes past the match, with the last matched
character as the new left context, exactly as `re.sub` does. -/
def removerPalavraLimitadaGo (padrao : Str) : Nat → Option Char → Str → Str
  | 0, _, t => t
  | _ + 1, _, [] => []
  | f + 1, ant, c :: r =>
    let t := c :: r
    if padrao ≠ [] && coincideIgnoraCaixa padrao t &&
        xorB (ehPalavraOpt ant) (ehCaractereDePalavra c) &&
        xorB (ehPalavraOpt (t.take padrao.length).getLast?) (ehPalavraOpt (t.drop padrao.length).head?) then
      removerPalavraLimitadaGo padrao f (t.take padrao.length).getLast? (t.drop padrao.length)
    else c :: removerPalavraLimitadaGo padrao f (some c) r

/-- Model of `re.sub(r'\b' + re.escape(padrao) + r'\b', '', t, flags=re.IGNORECASE)`:
remove every word-bounded, case-insensitive occurrence of a literal phrase
(source lines 754 and 778). -/
def removerPalavraLimitada (padrao t : Str) : Str :=
  removerPalavraLimitadaGo padrao t.length none t

/-- The per-house word lists of `casas_conhecidas` (source lines 758-770),
in dictionary insertion order. -/
def casas_conhecidas : List (String × List String) :=
  [("estrela", ["EstrelaBet", "Estrela"]),
   ("pinnacle", ["Pinnacle"]),
   ("marjo", ["MarjoSports", "Marjo", "Sports"]),
   ("super", ["SuperBet", "Super"]),
   ("stake", ["Stake"]),
   ("kto", ["KTO"]),
   ("blaze", ["Blaze"]),
   ("multibet", ["MultiBet", "Multi"]),
   ("bravo", ["BravoBet", "Bravo"]),
   ("betfast", ["Betfast"]),
   ("betano", ["Betano"])]

/-- Strip the known constituent words of at most one matching house family
from the type text (source lines 772-779). -/
def aplicarCasasConhecidas (casaMinuscula tipo : Str) : Str :=
  match casas_conhecidas.find? (fun par => temSub par.1.data casaMinuscula) with
  | some par => par.2.foldl (fun t w => removerPalavraLimitada w.data t) tipo
  | none => tipo

/-- Extracted bet type (source lines 696-787): remove the house substring
once and all `(BR)` literals, drop currency tokens and the numeric tokens
matching odd/stake/profit (keeping numbers preceded by a type keyword and
dropping negatives), clean separator glyphs and a trailing dash, remove the
word-bounded house name, apply the known-house word stripping, and collapse
whitespace; empty results become `None`. -/
def tipoExtraido (texto casa : Str) : Option Str :=
  let odd := oddExtraida texto
  let stake := stakeExtraido texto
  let profit := profitExtraido texto
  let tipoCompleto := pyStrip (removerTodas (txt ("(BR)")) (pyStrip (removerPrimeira casa texto)))
  let filtradas := filtrarPalavras odd stake profit none (pySplit tipoCompleto)
  let semSimbolos := (juntarEspacos filtradas).filter
    (fun c => c ≠ '●' && c ≠ '○' && c.toNat ≠ 0xF35D && c.toNat ≠ 0x232A)
  let limpo := pyStrip (removerTracoFinal (pyStrip (colapsarEspacos semSimbolos)))
  let casaSemParenteses := pyStrip (removerSufixosPais casa)
  let semCasa := removerPalavraLimitada casaSemParenteses limpo
  let semPalavras := aplicarCasasConhecidas (minuscula casaSemParenteses) semCasa
  let final := pyStrip (colapsarEspacos semPalavras)
  if final = [] then none else some final

/-- One extracted bet leg (the dict returned at source lines 784-790). -/
structure Aposta where
  house : Str
  odd : Option PyNum
  type : Option Str
  stake : Option PyNum
  profit : Option PyNum
deriving DecidableEq

/-- The extractor `processar_aposta_completa(texto_aposta, casa_aposta)` (source lines
619-790): derive odd, stake, profit and bet type from one leg's accumulated
text; the house field is the argument, unchanged. -/
def processar_aposta_completa (texto casa : Str) : Aposta :=
  { house := casa
  , odd := oddExtraida texto
  , type := tipoExtraido texto casa
  , stake := stakeExtraido texto
  , profit := profitExtraido texto }

/-!  ### The house gazetteer and detector (`detectar_casa_apostas`, source
lines 392-617) -/

/-- The static gazetteer `casas_sistema` (source lines 399-551), in source
order. -/
def casas_sistema : List String :=
  ["10Bet", "10Bet (SE)", "10Bet (ZA)", "10Bet (UK)",
   "10Bet (MX)", "888Games", "10Cric", "188Bet",
   "188Bet (PT)", "188Bet (Sbk)", "188Bet (ZH)", "HGA030 (Crown)",
   "HGA035 (Crown)", "18Bet", "BabiBet", "Hollywoodbets (UK)",
   "Premium Tradings", "RoyalistPlay", "RoyalistPlay (Bet)", "1Bet (CO)",
   "21Red", "Bet-Bra SB (BR)", "BetOBet", "BetOBet (CC)",
   "Dazzlehand", "FoggyBet", "OneCasino", "Scarawins",
   "1Win (Original)", "1xBet", "1xBet (AG)", "1xBet (BO)",
   "1xBet (MD)", "1xBet (NG)", "1xstavka (RU)", "Betandyou",
   "Linebet", "MegaPari", "Oppa88", "Pari-pesa",
   "Paripesa", "Paripesa (Asia)", "Paripesa (Biz)", "Paripesa (Com)",
   "Paripesa (Cool)", "Paripesa (ME)", "Paripesa (Net)", "Paripesa (NG)",
   "Paripesa (PT)", "Paripesa (Site)", "Paripesaut", "SapphireBet",
   "1xBet (ES)", "1xBet (IT)", "Fastbet (IT)", "22Bet",
   "22Bet (CM)", "22Bet (NG)", "22win88", "Bestwinzz",
   "32Red", "Unibet (EE)", "Unibet (IE)", "Unibet (UK)",
   "3et", "888sport", "888sport (DE)", "888sport (DK)",
   "888sport (ES)", "888sport (RO)", "MrGreen", "MrGreen (DK)",
   "MrGreen (SE)", "888sport (IT)", "AccessBet", "AdjaraBet",
   "Admiral (AT)", "Admiral (DE)", "AdmiralBet (ES)", "AdmiralCasino (UK)",
   "Swisslos (CH)", "AdmiralBet (IT)", "Afribet (NG)", "Betfred (ZA)",
   "AI Sports", "AirBet (IT)", "AndromedaBet (IT)", "BetItaly (IT)",
   "Akbets", "AlfaBet (BR)", "Aposta1 (BR)", "Apostaganha (BR)",
   "ArtlineBet", "AsianOdds", "B1Bet (BR)", "Bahigo",
   "Kakeyo", "BaltBet (RU)", "BandBet (BR)", "BangBet",
   "Betsure", "BantuBet (AO)", "Bet2U2", "BetBaba (NG)",
   "Bet-at-home", "Bet-at-home (DE)", "Bet-Bra (BR)", "Bet25 (DK)",
   "Bet3000 (DE)", "Bet365 (Fast)", "28365365", "365-808",
   "365sb", "365sport365", "878365", "Allsport365",
   "Bet365 (AU)", "Bet365 (BR)", "Bet365 (DE)", "Bet365 (ES)",
   "Bet365 (GR)", "Bet365 (IT)", "Bet365 (NL)", "Game-365 (CN)",
   "Bet365 (Full)", "Bet4 (BR)", "Bet4", "Bet4 (PE)",
   "Bet7", "Bet7k (BR)", "B2XBET (BR)", "BetBet (BR)",
   "Cassino (BR)", "Donald (BR)", "Vera (BR)", "Bet9ja",
   "Betadonis", "Betaland (IT)", "Betano", "Betano (CZ)",
   "Betano (DE)", "Betano (MX)", "Betano (NG)", "Betano (RO)",
   "Betano (BR)", "Betano (PT)", "Betao (BR)", "BravoBet (BR)",
   "Maxima (BR)", "R7Bet (BR)", "XpBet (BR)", "BetBoom (BR)",
   "BetBoom", "BetBoom (RU)", "Betboro", "Betboro (GH)",
   "Betcity", "Betcity (BY)", "Betcity (Net)", "Betcity (RU)",
   "Formula55 (TJ)", "Betcity (NL)", "SpeedyBet", "BetClic",
   "BetClic (FR)", "BetClic (IT)", "BetClic (PL)", "BetClic (PT)",
   "Betcris", "Betcris (DO)", "Betcris (MX)", "Betcris (PL)",
   "BetDaq", "BetDaSorte (BR)", "Afun (BR)", "BetDSI (EU)",
   "BetEsporte (BR)", "LanceDeSorte (BR)", "Betfair", "Betfair (AU)",
   "Betfair (BR)", "Betfair (RO)", "SatSport", "Sharpxch",
   "Tradexbr", "Betfair (ES)", "Betfair (IT)", "Betfair (MBR)",
   "Betfair SB", "Betfair SB (ES)", "Betfair SB (RO)", "Betfarm",
   "Betfirst (BE)", "Betflip", "Casobet (Sport)", "Fairspin",
   "Tether", "Betfred", "BetiBet", "Betika (KE)",
   "BetInAsia (Black)", "Betinia", "CampoBet", "Lottoland (UK)",
   "BetKing", "Betlive", "Betmaster", "BetMomo",
   "Betnacional (BR)", "Betnation (NL)", "BetOnline (AG)", "BetOnline (Classic)",
   "LowVig (AG)", "SportsBetting (AG)", "TigerGaming", "BetPawa (NG)",
   "BetPawa (CM)", "BetPawa (GH)", "BetPawa (KE)", "BetPawa (RW)",
   "BetPawa (TZ)", "BetPawa (UG)", "BetPawa (ZM)", "BetPix365 (BR)",
   "Vaidebet", "BetRebels", "21Bets", "7bet (LT)",
   "All British Casino", "ApuestaTotal", "Bankonbet", "BaumBet (RO)",
   "Bet593 (EC)", "Betaki (BR)", "Betanoshops (NG)", "Betinia (DK)",
   "Betinia (SE)", "BetNFlix", "Bettarget (UK)", "CampeonBet",
   "Casinado", "CasinoAtlanticCity", "Casinoly", "Cazimbo",
   "DoradoBet", "Ecuabet", "ElaBet (GR)", "EsportivaBet (BR)",
   "EstrelaBet (BR)", "EvoBet", "FezBet", "FrankSports (RO)",
   "GastonRed", "Golden Palace (BE)", "Greatwin", "Jogodeouro (BR)",
   "Juegaenlineachile (CL)", "JupiCasino", "Karamba", "Karamba (UK)",
   "Lapilanders", "LotoGreen (BR)", "Lottland (IE)", "Lottoland",
   "Lottoland (AT)", "MalinaCasino", "Mcgames (BR)", "Merkurxtip (CZ)",
   "Metgol (BR)", "MiСasino", "MrBit (BG)", "MrBit (RO)",
   "MultiBet (BR)", "NinjaCasino", "Novajackpot", "Playdoit (MX)",
   "PowBet", "Rabona", "RabonaBet", "RtBet",
   "SlotV (RO)", "SONSofSLOTS", "Spinanga", "Sportaza",
   "StarCasinoSport (BE)", "Supacasi", "SvenBet", "Svenplay",
   "ToonieBet (CA)", "Vavada", "Vegas (HU)", "Wazamba",
   "Winpot (MX)", "Betrivers (CA)", "Betrivers (AZ)", "Betsafe",
   "Bethard", "Betsafe (EE)", "Betsafe (LV)", "Betsafe (SE)",
   "Betsson", "Bets10", "Betsson (AR)", "Betsson (BR)",
   "Betsson (CO)", "Betsson (SE)", "Inkabet (PE)", "Betsson (ES)",
   "Betpark (BR)", "SupremaBet (BR)", "Betsson (FR)", "Betsson (GE)",
   "Betsson (GR)", "Betsmith", "Betsson (IT)", "Betsul (BR)",
   "Betuk (UK)", "Betus (PA)", "BetVictor", "Parimatch (UK)",
   "Puntit (IN)", "BetWarrior", "BetWarrior (BR)", "BetWarrior (Caba)",
   "BetWarrior (MZA)", "BetWarrior (PBA)", "BetWarrior Apuestas (AR)", "LeoVegas (IT)",
   "Svenska Spel (SE)", "BetWay", "BetWay (DE)", "BetWay (ES)",
   "BetWay (MX)", "BetWay (IT)", "Betwgb", "AdmiralBet (ME)",
   "AdmiralBet (RS)", "AdmiralBet (UG)", "BetX (CZ)", "Betxchange",
   "Bingoal (BE)", "BallyBet", "BetPlay (CO)", "Bingoal (NL)",
   "Desert Diamond", "Expekt (SE)", "Blaze", "4RaBet",
   "4RaBet (Play)", "500Casino", "Africa365", "BC.Game",
   "BetFury", "Betonred", "Betonred (NG)", "BetPlay",
   "BetTilt", "Betvip", "Betvip (BR)", "BilBet",
   "Bitz", "Blaze (BR)", "BloodMoon (CO)", "BlueChip",
   "Bons", "CasinoX", "Casinozer", "Casinozer (EU)",
   "CsGo500", "Fortunejack", "HugeWin", "JetBet (BR)",
   "JonBet (BR)", "Joycasino", "Lucky Block", "Lucky Block (Top)",
   "Opabet", "PinBet", "Pokerdom", "PuskasBet (BR)",
   "Rainbet", "RajaBets", "Razed", "Riobet",
   "Rivalry", "Rollbit", "RooBet", "Slots Safari (CO)",
   "Solcasino", "TrBET", "Yonibet", "Yonibet (EU)",
   "BoaBet", "Bodog (EU)", "Bovada (LV)", "BolsaDeAposta (BR)",
   "BolsaDeAposta TB (BR)", "BookMaker (EU)", "JustBet (CO)", "BookmakerXyz",
   "BoyleSports", "Brazino 777", "Brazino 777 (BY)", "Brazino 777 (IO)",
   "Wazobet", "BrBet (BR)", "BresBet", "Bumbet",
   "Bwin", "Betboo (BR)", "Betmgm (CA)", "Betmgm (MA)",
   "Betmgm (NY)", "Bwin (BE)", "Bwin (DE)", "Bwin (DK)",
   "Bwin (ES)", "Bwin (GR)", "Bwin (IT)", "Gamebookers",
   "Giocodigitale (IT)", "Ladbrokes (DE)", "Oddset (DE)", "Partypoker",
   "Sportingbet", "Sportingbet (BR)", "Sportingbet (DE)", "Sportingbet (GR)",
   "Sportingbet (ZA)", "Vistabet (GR)", "Bwin (FR)", "Bwin (PT)",
   "Caliente (MX)", "Betcha (PA)", "Marca Apuestas (ES)", "Wplay (CO)",
   "CampoBet (DK)", "Casa Pariurilor (RO)", "Fortuna (RO)", "CasaDeApostas (BR)",
   "Betmais", "CasinoPortugal (PT)", "CBet", "CBet (LT)",
   "Circus (BE)", "Circus (NL)", "CloudBet", "Codere (ES)",
   "Codere (AR)", "Codere (MX)", "Comeon", "Casinostugan",
   "Comeon (PL)", "Hajper", "Lyllo Casino", "MobileBet",
   "Nopeampi", "Pzbuk (PL)", "Saga Kingdom", "Snabbare",
   "SunMaker (DE)", "Comeon (NL)", "CoolBet", "CoolBet (CL)",
   "CoolBet (PE)", "Coral (UK)", "Crocobet", "CrystalBet (GE)",
   "DafaBet (ES)", "DafaBet (Sports)", "Amperjai", "Nextbet",
   "DafaBet OW (Saba)", "12Bet (Saba)", "12Bet (Saba-ID)", "12Bet (Saba-MY)",
   "CMD368 (Saba)", "M88 (Saba)", "W88Live (Saba)", "Danskespil (DK)",
   "DaznBet (ES)", "DaznBet (UK)", "DomusBet (IT)", "DoxxBet (SK)",
   "Draftkings", "Draftking (CT)", "DragonBet (UK)", "DripCasino",
   "Duelbits", "Easybet (ZA)", "Ebingo (ES)", "BetaBet",
   "BetaBet (Net)", "Betcoin (AG)", "ShansBet", "EDSBet",
   "Efbet (ES)", "Efbet (BG)", "Efbet (IT)", "Efbet (RO)",
   "Efbet (GR)", "Efbet (Net)", "EGB", "EGB SPORT",
   "EpicBet", "Eplay24 (IT)", "BegameStar (IT)", "Betwin360 (IT)",
   "SportItaliaBet (IT)", "EsporteNetBet (BR)", "BetsBola", "EsporteNetSP (BR)",
   "EsporteNetVip (BR)", "EsporteNetVip", "EsportesDaSorte (BR)", "EstorilSolCasinos (PT)",
   "Etipos (SK)", "Etopaz (AZ)", "Etoto (PL)", "EuroBet (IT)",
   "EveryGame (EU)", "ExclusiveBet", "Betfinal", "IZIbet",
   "MrXBet", "ShangriLa", "UniClub (LT)", "Expekt (DK)",
   "LeoVegas (DK)", "F12Bet (BR)", "SPIN (BR)", "Fanatics",
   "FanDuel", "Betfair SB (BR)", "FanDuel (CT)", "Fastbet",
   "CopyBet (CY)", "FavBet", "FavBet (UA)", "FB Sports",
   "Fonbet", "BeteryBet (IN)", "Bettery (RU)", "Fonbet (GR)",
   "Fonbet (KZ)", "Fonbet (Mobile)", "Pari (RU)", "Football (NG)",
   "Fortuna (CZ)", "Fortuna (PL)", "Fortuna (SK)", "FulltBet (BR)",
   "GaleraBet (BR)", "888Casino (Arabic)", "Gamdom", "GazzaBet (IT)",
   "Germania (HR)", "GGBet", "Freeggbet", "Vulkan",
   "Goalbet", "GoldBetShop (IT)", "BetFlag (IT)", "GoldBet (IT)",
   "IntralotShop (IT)", "Lottomatica (IT)", "PlanetWin365 (IT)", "GoldenPark (ES)",
   "CasinoBarcelona (ES)", "Solcasino (ES)", "GoldenPark (PT)", "GoldenVegas (BE)",
   "GrandGame (BY)", "HiperBet (BR)", "HKJC", "HoliganBet (TR)",
   "JojoBet", "Holland Casino (NL)", "Hollywoodbets", "Hollywoodbets (MZ)",
   "iForBet (PL)", "Ilotbet", "Interwetten", "Interwetten (ES)",
   "Interwetten (GR)", "IviBet", "20Bet", "Jacks (NL)",
   "Expekt", "JetCasino", "Flagman", "FreshCasino",
   "Rox (Sport)", "Jokerbet (ES)", "JSB", "Boltbet (GH)",
   "Primabet (GM)", "TicTacBets (ZA)", "JugaBet (CL)", "Parimatch (TJ)",
   "KingsBet (CZ)", "KirolBet (ES)", "Apuestasvalor (ES)", "Aupabet (ES)",
   "Juegging (ES)", "Kwiff", "Betkwiff", "Ladbrokes",
   "Ladbrokes (BE)", "LeaderBet", "Lebull (PT)", "Leon",
   "Leon (RU)", "Twin", "LeoVegas", "Betmgm (BR)",
   "Williamhill (SE)", "LeoVegas (ES)", "LigaStavok (RU)", "LivescoreBet (NG)",
   "SunBet (ZA)", "LivescoreBet (UK)", "LivescoreBet (IE)", "VirginBet",
   "LsBet", "KikoBet", "Mundoapostas", "ReloadBet",
   "SlottoJAM", "TornadoBet", "Luckia (ES)", "Luckia (CO)",
   "Luckia (MX)", "LvBet", "LvBet (LV)", "LvBet (PL)",
   "Mansion (M88-BTI)", "Marathon", "Marathon (BY)", "Marathon (RU)",
   "MBet", "MarathonBet (DK)", "MarathonBet (ES)", "MarathonBet (IT)",
   "MarjoSports (BR)", "Marjo Sports (BR)", "Marjo", "Matchbook",
   "Maxbet (RS)", "Maxbet (BA)", "MaxLine (BY)", "Mcbookie",
   "StarSports", "MelBet", "Betwinner", "DBbet",
   "MelBet (BI)", "MelBet (KE)", "MelBet (MN)", "Meridian",
   "Meridian (CY)", "Meridian (BE)", "Meridian (BA)", "Meridian (ME)",
   "Meridian (RS)", "Meridian (PE)", "JogaBets (MZ)", "Meridian (BR)",
   "MerkurBets", "Betcenter (BE)", "Cashpoint (DK)", "MerkurBets (DE)",
   "Miseojeu+", "Misli (AZ)", "MostBet", "Mozzart",
   "Mozzart (BA)", "Mozzart (NG)", "Mozzart (RO)", "MSport (GH)",
   "MSport (NG)", "Mystake", "31Bet", "9dBet (BR)",
   "Betfast", "Betfast (BR)", "Donbet", "Donbet (Win)",
   "Faz1Bet (BR)", "Freshbet", "Goldenbet", "Jackbit",
   "Mystake (Bet)", "Rolletto", "TivoBet (BR)", "Velobet (Win)",
   "Wjcasino (BR)", "N1Bet", "12Play", "CelsiusCasino",
   "Coins Game", "Wild", "YBets", "NaijaBet",
   "NairaBet", "Napoleon (BE)", "Neobet", "Neobet (CA)",
   "Neobet (DE)", "Neobet (ZA)", "Nesine (TR)", "Bilyoner",
   "Misli (Com)", "Oley", "NetBet", "Bet777 (BE)",
   "Bet777 (ES)", "NetBet (GR)", "NetBet (BR)", "NetBet (FR)",
   "NetBet (IT)", "DaznBet (IT)", "OriginalBet (IT)", "Plexbet (IT)",
   "NetBet (RO)", "Nike (SK)", "NitroBetting (EU)", "Norsk Tipping (NO)",
   "Novibet (BR)", "Novibet (GR)", "Novibet (IE)", "Olimp",
   "Olimp (Bet)", "Olimpbet (KZ)", "Olimpkz", "OlimpoBet (PE)",
   "OlyBet (ES)", "OlyBet (EU)", "OlyBet (FR)", "FeelingBet (FR)",
   "Genybet (FR)", "OlyBet (LT)", "Onabet (BR)", "Esporte365 (BR)",
   "LuckBet (BR)", "Luvabet (BR)", "Optibet (LT)", "Optibet (LV)",
   "Optibet (EE)", "OrbitX", "OrbiteX", "Paddy Power",
   "PameStoixima (GR)", "Parasino", "ApxBet", "Betonngliga",
   "BigBet (BR)", "LiderBet (BR)", "RealsBet (BR)", "Parimatch (KZ)",
   "BuddyBet (UA)", "Gra (Live)", "ParionsSport (FR)", "Paston (ES)",
   "Br4bet (BR)", "SorteOnline (BR)", "Pin-up", "BetPlays",
   "Pin-up (RU)", "BaseBet", "Casino Spinamba", "Lucky Bird Casino",
   "MarsBet", "Pin-up (EN)", "Slottica", "Slotty Way",
   "Winmasters", "Winmasters (CY)", "Winmasters (GR)", "Winmasters (RO)",
   "Pinnacle", "P4578 (Asian)", "P4578 (EU)", "Pin135 (EU)",
   "Pinnacle (Bet)", "Pinnacle (BR)", "Pinnacle (SE)", "Pinnacle888 (Asian)",
   "Pinnacle888 (EU)", "Piwi247 (SB)", "PS3838 (Broker)", "Start975 (Asian)",
   "Start975 (EU)", "Piwi247", "PixBet (BR)", "FlaBet (BR)",
   "Pixbet285", "Placard (PT)", "Playbonds", "PlayNow",
   "PMU (FR)", "PointsBet (AU)", "PokerStars", "PokerStars (DK)",
   "PokerStars (RO)", "PokerStars (FR)", "PokerStars (UK)", "PokerStars (CA)",
   "PokerStars (ES)", "PokerStars (SE)", "PremierBet (MW)", "MercuryBet",
   "PremierBet (AO)", "PremierBet (CD)", "PremierBet (CG)", "PremierBet (CM)",
   "PremierBet (MZ)", "PremierBet (SN)", "PremierBet (TD)", "PremierBet (TZ)",
   "QQ101 (BTI)", "10Bet (KR)", "12Bet (BTI-ID)", "Fun88 (IN)",
   "QQ101 (IM Sports)", "RayBet", "Reidopitaco (BR)", "RetaBet (ES)",
   "RetaBet (ES-AN)", "RetaBet (PE)", "RicoBet (BR)", "BetGorillas (BR)",
   "KingpandaBet (BR)", "Rivalo (BR)", "Rivalo (CO)", "RuBet",
   "Rushbet (CO)", "GoldenBull (SE)", "Rushbet (MX)", "Sazka (CZ)",
   "Sbobet", "Pic5678", "SbobetAsia", "SboTop",
   "Sbobet (Esport)", "12Bet (Esport)", "BTC365 (Esport)", "VKGame",
   "SeuBet (BR)", "747 Live", "Shuffle", "Sisal (IT)",
   "PokerStars (IT)", "SkyBet", "Smarkets", "Snai (IT)",
   "SoccaBet", "SolisBet", "Solverde (PT)", "SorteNaBet (BR)",
   "Bateu (BR)", "Betfusion (BR)", "BullsBet (BR)", "SportBet (IT)",
   "BetX (IT)", "StarGame (IT)", "SportingWin", "Sportium (CO)",
   "Sportium (ES)", "Sportmarket", "SportsBet", "SportsBet (AU)",
   "SportyBet", "SportyBet (BR)", "Stake", "Stake (BR)",
   "KTO (BR)", "Stake (CO)", "Frumzi", "FunBet",
   "LibraBet", "MafiaCasino", "StoneVegas", "StanleyBet (BE)",
   "StanleyBet (IT)", "StanleyBet (RO)", "Admiral (RO)", "StarCasino (NL)",
   "Stoiximan (GR)", "Stoiximan (CY)", "Stoiximan (GR)", "STS (PL)",
   "SuperBet (BR)", "Super Bet (BR)", "SuperBet (PL)", "SuperBet (RO)",
   "SuperBet (RS)", "Surebet247", "SX Bet", "SynotTip (LV)",
   "SynotTip (CZ)", "SynotTip (SK)", "Tab (AU)", "TeApuesto (PE)",
   "TempoBet", "Tennisi", "Tennisi (Bet)", "Tennisi (KZ)",
   "ThunderPickIo (NO)", "Tipico", "Tipico (DE)", "Tipp3 (AT)",
   "TippmixPro (HU)", "Tipsport (CZ)", "Chance (CZ)", "Tipsport (SK)",
   "Tipwin (DE)", "Tipwin", "Tipwin (DK)", "Tipwin (SE)",
   "TonyBet", "Vave", "TonyBet (ES)", "TonyBet (NL)",
   "Topsport (LT)", "Toto (NL)", "TotoGaming (AM)", "1Win (Provider)",
   "Cannonbet", "CaptainsBet (KE)", "MelBet (NG)", "MelBet (RU)",
   "Sol.Casino", "Tinbet (PE)", "Winspirit", "Ubet (CY)",
   "Ubet (KZ)", "Betera (BY)", "Unibet (DK)", "Unibet (BE)",
   "Unibet (FI)", "Unibet (SE)", "Unibet (FR)", "Unibet (RO)",
   "ATG (SE)", "Betmgm (NL)", "Betmgm (SE)", "Betmgm (UK)",
   "Casumo", "Casumo (ES)", "GrosvenorCasinos", "No Account Bet (SE)",
   "Paf", "Paf (ES)", "Paf (SE)", "PafBet (LV)",
   "Scoore (BE)", "Unibet (AU)", "Unibet (IT)", "Unibet (MT)",
   "Unibet (NL)", "VBet", "Bets60", "H2bet (BR)",
   "Hash636", "Uabet", "VBet (AM)", "VBet (BR)",
   "7Games (BR)", "Seguro (BR)", "VBet (FR)", "VBet (LAT)",
   "VBet (NL)", "VBet (UK)", "Veikkaus (FI)", "Versus (ES)",
   "Vivasorte (BR)", "4Play (BR)", "4Win (BR)", "Ginga (BR)",
   "QG (BR)", "Zeroum (BR)", "Vulkan Bet", "W88Es",
   "Wildz", "William Hill", "Williamhill (ES)", "Williamhill (IT)",
   "Winamax (ES)", "Winamax (DE)", "Winamax (FR)", "WinBet (BG)",
   "WinBet (RO)", "Winline (RU)", "WolfBet", "WonderBet (CO)",
   "WWin", "YaassCasino (ES)", "Yabo888", "Yajuego (CO)",
   "YSB", "Zamba (CO)", "ZeBet", "ZeBet (BE)",
   "ZeBet (ES)", "ZeBet (NL)", "Zenit", "Zenit (Win)"]

/-- The sort key used by `sorted(casas_sistema, key=lambda x: (-len(x),
'(' not in x))` (source line 557), computed once per entry exactly as
Python's `sorted` computes its keys: length, presence of a parenthesis, and
the entry itself. -/
def chaveCasa (c : String) : Nat × Bool × String :=
  (c.length, c.data.any (fun ch => ch = '('), c)

/-- Strict "comes before" on sort keys: longer entries first; among equal
lengths, entries with a parenthesis before those without ( `False < True`
on the Python key component `'(' not in x`). -/
def chaveAntes (a b : Nat × Bool × String) : Bool :=
  b.1 < a.1 || (a.1 == b.1 && (a.2.1 && !b.2.1))

/-- Stable merge of two key-sorted runs: the element of the left (earlier)
run is taken unless the right one strictly precedes it, so equal keys keep
the original order.  Fuelled by the combined length, which suffices since
every step consumes one element. -/
def mesclarCasas :
    Nat → List (Nat × Bool × String) → List (Nat × Bool × String) →
      List (Nat × Bool × String)
  | 0, xs, ys => xs ++ ys
  | _ + 1, [], ys => ys
  | _ + 1, x :: xs, [] => x :: xs
  | f + 1, x :: xs, y :: ys =>
    if chaveAntes y x then y :: mesclarCasas f (x :: xs) ys
    else x :: mesclarCasas f xs (y :: ys)

/-- One bottom-up round: adjacent runs are merged pairwise, preserving the
left-to-right order of the runs. -/
def mesclarPares :
    List (List (Nat × Bool × String)) → List (List (Nat × Bool × String))
  | [] => []
  | [l] => [l]
  | l1 :: l2 :: resto =>
    mesclarCasas (l1.length + l2.length) l1 l2 :: mesclarPares resto

/-- Bottom-up rounds of merging, fuelled by the initial number of runs
(the run count at least halves per round, so the fuel is ample). -/
def rodadasDeMescla :
    Nat → List (List (Nat × Bool × String)) → List (Nat × Bool × String)
  | 0, ls => ls.flatten
  | _ + 1, [] => []
  | _ + 1, [l] => l
  | f + 1, l1 :: l2 :: resto => rodadasDeMescla f (mesclarPares (l1 :: l2 :: resto))

/-- Stable bottom-up merge sort of the keyed entries.  Python's `sorted` is
likewise stable, and any two stable sorts by the same key coincide, so this
reproduces `casas_ordenadas` exactly. -/
def ordenarCasas (l : List (Nat × Bool × String)) : List (Nat × Bool × String) :=
  rodadasDeMescla l.length (l.map (fun x => [x]))

/-- The list `casas_ordenadas = sorted(casas_sistema, key=lambda x: (-len(x), '(' not
in x))` (source line 557). -/
def casas_ordenadas : List String :=
  (ordenarCasas (casas_sistema.map chaveCasa)).map (fun p => p.2.2)

/-- Match the words of a bare gazetteer entry against the beginning of a
text suffix, with `\s*` (any whitespace run, possibly empty) between
consecutive words; returns the number of characters consumed.  The gaps are
forced: words are nonempty and start with non-whitespace, so a shorter gap
leaves a whitespace character where the next word must start. -/
def coincidePalavrasFlex : List Str → Str → Option Nat
  | [], _ => some 0
  | [w], t => if w.isPrefixOf t then some w.length else none
  | w :: w2 :: ws, t =>
    if w.isPrefixOf t then
      let r := t.drop w.length
      let sp := r.takeWhile ehEspaco
      match coincidePalavrasFlex (w2 :: ws) (r.drop sp.length) with
      | some n => some (w.length + sp.length + n)
      | none => none
    else none

/-- Model of `re.search` of the bare-entry pattern `\b` + `re.escape(name)` with each
escaped space replaced by `\s*` + `\b` (source lines 588-589): scan every
start position, checking the word-boundary context on both sides of the
match.  `ant` is the character before the current position. -/
def buscaPalavraFlex (ws : List Str) : Option Char → Str → Bool
  | _, [] => false
  | ant, c :: r =>
    (match coincidePalavrasFlex ws (c :: r) with
     | some n =>
       xorB (ehPalavraOpt ant) (ehCaractereDePalavra c) &&
         xorB (ehPalavraOpt ((c :: r).take n).getLast?) (ehPalavraOpt ((c :: r).drop n).head?)
     | none => false) ||
    buscaPalavraFlex ws (some c) r

/-- The per-entry test of the gazetteer loop (source lines 560-590), on an
already-lowercased line.  Entries with `' ('` are split into base words and
suffix, each base word and the suffix must occur as substrings, and the
first base word must occur before the suffix; entries with `'('` but no
`' ('` use plain containment; bare entries use the word-bounded
flexible-whitespace search. -/
def casaCoincide (casa : String) (linhaMin : Str) : Bool :=
  let cl := minuscula casa.data
  if cl.any (fun ch => ch = '(') then
    match findSub (txt (" (")) cl with
    | some i =>
      let nomeBase := cl.take i
      let sufixo := '(' :: cl.drop (i + 2)
      let palavrasBase := pySplit nomeBase
      match palavrasBase with
      | [] => false
      | p0 :: _ =>
        if palavrasBase.all (fun p => temSub p linhaMin) && temSub sufixo linhaMin then
          match findSub p0 linhaMin, findSub sufixo linhaMin with
          | some i1, some i2 => decide (i1 < i2)
          | _, _ => false
        else false
    | none => temSub cl linhaMin
  else buscaPalavraFlex (pySplit cl) none linhaMin

/-- Character class `[A-Za-z\s\(\)]` of the dynamic-pattern group. -/
def classeGrupoB (c : Char) : Bool :=
  ehLetraAscii c || ehEspaco c || c = '(' || c = ')'

/-- Character class `[A-Za-z0-9()+\-≥≤\.]` following the group. -/
def classeCauda (c : Char) : Bool :=
  ehLetraAscii c || ehDigito c || c = '(' || c = ')' || c = '+' || c = '-' ||
    c = '≥' || c = '≤' || c = '.'

/-- Does `\s+[A-Za-z0-9()+\-≥≤\.]+\s+\d+\.\d+` match at the start of `t`?
The greedy runs are forced because the three character classes are mutually
disjoint on their boundaries (the tail class contains no whitespace). -/
def caudaDinamica (t : Str) : Bool :=
  let sp1 := t.takeWhile ehEspaco
  sp1 ≠ [] &&
    (let t1 := t.drop sp1.length
     let meio := t1.takeWhile classeCauda
     meio ≠ [] &&
       (let t2 := t1.drop meio.length
        let sp2 := t2.takeWhile ehEspaco
        sp2 ≠ [] && (tentarDecimal (t2.drop sp2.length)).isSome))

/-- Greedy search for the group length `k` (from at most 30 down to 2) such
that the rest of the dynamic pattern matches after the group — the
backtracking order of the regex engine on `{2,30}`. -/
def acharGrupoGuloso (resto : Str) : Nat → Option Nat
  | 0 => none
  | 1 => none
  | k + 2 =>
    if caudaDinamica (resto.drop (k + 2)) then some (k + 2)
    else acharGrupoGuloso resto (k + 1)

/-- The dynamic-pattern fallback (source lines 594-599):
`re.search(r'^([A-Z][A-Za-z\s\(\)]{2,30})\s+[A-Za-z0-9()+\-≥≤\.]+\s+\d+\.\d+', linha)`,
returning the stripped group when its length is at least 3. -/
def padraoDinamico (linha : Str) : Option Str :=
  match linha with
  | [] => none
  | c0 :: resto =>
    if ehMaiusculaAscii c0 then
      match acharGrupoGuloso resto (min (resto.takeWhile classeGrupoB).length 30) with
      | some k =>
        let candidata := pyStrip (c0 :: resto.take k)
        if 3 ≤ candidata.length then some candidata else none
      | none => none
    else none

/-- The fragment fallback (source lines 603-613): if the line's first word
is a capitalized token of 3-15 characters that is a case-insensitive prefix
of some gazetteer entry's base name (the part before `'('`, stripped),
return that token. -/
def fragmentoInicial (linha : Str) : Option Str :=
  match pySplit (pyStrip linha) with
  | [] => none
  | w :: _ =>
    match w with
    | [] => none
    | c0 :: _ =>
      if 3 ≤ w.length && w.length ≤ 15 && ehMaiusculaPy c0 then
        if casas_sistema.any (fun casa =>
            (minuscula w).isPrefixOf (minuscula (pyStrip (casa.data.takeWhile (fun ch => ch ≠ '('))))) then
          some w
        else none
      else none

/-- The detector `detectar_casa_apostas(linha)` (source lines 392-617): first matching
gazetteer entry in specificity order, else the dynamic pattern, else the
fragment fallback, else nothing. -/
def detectar_casa_apostas (linha : Str) : Option Str :=
  match casas_ordenadas.find? (fun casa => casaCoincide casa (minuscula linha)) with
  | some casa => some casa.data
  | none =>
    match padraoDinamico linha with
    | some candidata => some candidata
    | none => fragmentoInicial linha

/-- Membership is preserved by the stable merge. -/
theorem mem_mesclarCasas {a : Nat × Bool × String} :
    ∀ (f : Nat) (xs ys : List (Nat × Bool × String)),
      a ∈ mesclarCasas f xs ys ↔ a ∈ xs ∨ a ∈ ys := by
  intro f
  induction f with
  | zero => intro xs ys; simp [mesclarCasas]
  | succ f ih =>
    intro xs ys
    cases xs with
    | nil => simp [mesclarCasas]
    | cons x xs =>
      cases ys with
      | nil => simp [mesclarCasas]
      | cons y ys =>
        rw [mesclarCasas]
        by_cases hc : chaveAntes y x = true
        · rw [if_pos hc]
          simp only [List.mem_cons, ih]
          tauto
        · rw [if_neg hc]
          simp only [List.mem_cons, ih]
          tauto

/-- A merging round preserves the members of the flattened run list. -/
theorem mem_mesclarPares {a : Nat × Bool × String} :
    ∀ ls : List (List (Nat × Bool × String)),
      a ∈ (mesclarPares ls).flatten ↔ a ∈ ls.flatten
  | [] => by simp [mesclarPares]
  | [l] => by simp [mesclarPares]
  | l1 :: l2 :: resto => by
    simp only [mesclarPares, List.flatten_cons, List.mem_append, mem_mesclarCasas,
      mem_mesclarPares resto]
    tauto

/-- The bottom-up rounds preserve the members of the flattened run list. -/
theorem mem_rodadasDeMescla {a : Nat × Bool × String} :
    ∀ (f : Nat) (ls : List (List (Nat × Bool × String))),
      a ∈ rodadasDeMescla f ls ↔ a ∈ ls.flatten := by
  intro f
  induction f with
  | zero => intro ls; rw [rodadasDeMescla]
  | succ f ih =>
    intro ls
    rcases ls with _ | ⟨l1, _ | ⟨l2, resto⟩⟩
    · simp [rodadasDeMescla]
    · simp [rodadasDeMescla]
    · rw [rodadasDeMescla, ih, mem_mesclarPares]

/-- Membership is preserved by the merge sort. -/
theorem mem_ordenarCasas {y : Nat × Bool × String} :
    ∀ {l : List (Nat × Bool × String)}, y ∈ ordenarCasas l ↔ y ∈ l := by
  intro l
  rw [ordenarCasas, mem_rodadasDeMescla]
  constructor
  · intro h
    obtain ⟨m, hm, hym⟩ := List.mem_flatten.1 h
    obtain ⟨x, hx, hxm⟩ := List.mem_map.1 hm
    have : y = x := by
      rw [← hxm] at hym
      simpa using hym
    exact this ▸ hx
  · intro h
    exact List.mem_flatten.2 ⟨[y], List.mem_map.2 ⟨y, h, rfl⟩, List.mem_cons_self y []⟩

/-- The sorted gazetteer has exactly the members of the source gazetteer. -/
theorem mem_casas_ordenadas {c : String} :
    c ∈ casas_ordenadas ↔ c ∈ casas_sistema := by
  unfold casas_ordenadas
  constructor
  · intro h
    obtain ⟨p, hp, hpc⟩ := List.mem_map.1 h
    rw [mem_ordenarCasas] at hp
    obtain ⟨c', hc', hcc⟩ := List.mem_map.1 hp
    subst hcc
    exact hpc ▸ hc'
  · intro h
    exact List.mem_map.2
      ⟨chaveCasa c, mem_ordenarCasas.2 (List.mem_map.2 ⟨c, h, rfl⟩), rfl⟩

/-- The scan `List.find?` returns `x` when `x` satisfies the predicate and
every element tested before the first occurrence of `x` fails it. -/
theorem find?_ate_primeiro {α : Type} [BEq α] [LawfulBEq α] (p : α → Bool) (x : α) :
    ∀ l : List α, x ∈ l → p x = true →
      (l.takeWhile (fun c => !(c == x))).all (fun c => !(p c)) = true →
      l.find? p = some x := by
  intro l
  induction l with
  | nil => intro hx; exact absurd hx (List.not_mem_nil x)
  | cons a r ih =>
    intro hx hp hantes
    by_cases hax : a = x
    · subst hax
      simp [List.find?_cons, hp]
    · have htw : (a :: r).takeWhile (fun c => !(c == x)) =
          a :: r.takeWhile (fun c => !(c == x)) := by
        simp [List.takeWhile_cons, hax]
      rw [htw] at hantes
      have hpa : p a = false := by
        have := (List.all_eq_true.1 hantes) a (List.mem_cons_self a _)
        simpa using this
      have hxr : x ∈ r := by
        rcases List.mem_cons.1 hx with h | h
        · exact absurd h.symm hax
        · exact h
      have hresto : (r.takeWhile (fun c => !(c == x))).all (fun c => !(p c)) = true := by
        rw [List.all_eq_true]
        intro c hc
        exact (List.all_eq_true.1 hantes) c (List.mem_cons_of_mem a hc)
      simp only [List.find?_cons, hpa]
      exact ih hxr hp hresto

/-- C1 (amended): the detector returns every gazetteer entry unchanged
except the two shadowed ones.  (i) Every entry whose display text passes
its own gazetteer test and is *not shadowed* — no entry tested before it in
the specificity order matches its line — is returned by the gazetteer loop;
this covers every entry except `MarjoSports (BR)` and `SuperBet (BR)`
(shadowed by their earlier-sorted spaced variants, see
`c1_counterexample`) and `Miseojeu+`.  (ii) `Miseojeu+`, whose own
bare-entry test fails (its trailing word boundary `\b` after `+` cannot
hold at the end of the line), is nevertheless returned unchanged through
the fragment fallback. -/
theorem c1_gazetteer_self_detection :
    (∀ h : String, h ∈ casas_sistema →
      casaCoincide h (minuscula h.data) = true →
      (casas_ordenadas.takeWhile (fun c => !(c == h))).all
        (fun c => !(casaCoincide c (minuscula h.data))) = true →
      detectar_casa_apostas h.data = some h.data) ∧
    detectar_casa_apostas (txt ("Miseojeu+")) = some (txt ("Miseojeu+")) := by
  constructor
  · intro h hmem hself hantes
    have hfind :
        casas_ordenadas.find? (fun casa => casaCoincide casa (minuscula h.data)) = some h :=
      find?_ate_primeiro _ h _ (mem_casas_ordenadas.2 hmem) hself hantes
    unfold detectar_casa_apostas
    rw [hfind]
  · decide

/-- C1 witness: the entry `Pinnacle` matches itself and no entry tested
before it matches the line `Pinnacle`, so the detector returns it
unchanged. -/
theorem c1_witness :
    ("Pinnacle" ∈ casas_sistema) ∧
      detectar_casa_apostas (txt ("Pinnacle")) = some (txt ("Pinnacle")) :=
  ⟨by decide,
   c1_gazetteer_self_detection.1 "Pinnacle" (by decide) (by decide) (by decide)⟩

/-- C1 counterexample: `MarjoSports (BR)` is a gazetteer entry, but the
detector maps its exact display text to the *different* entry
`Marjo Sports (BR)` — the longer spaced variant is sorted first and its
base words `marjo`, `sports` and suffix `(br)` all occur as substrings of
`marjosports (br)` — so `detect(h) = h` fails. -/
theorem c1_counterexample :
    ("MarjoSports (BR)" ∈ casas_sistema) ∧
      detectar_casa_apostas (txt ("MarjoSports (BR)")) = some (txt ("Marjo Sports (BR)")) ∧
      txt ("Marjo Sports (BR)") ≠ txt ("MarjoSports (BR)") :=
  ⟨by decide, by decide, by decide⟩

/-!  ### The line reassembler (`preprocessar_linhas_quebradas`, source lines
8-63) -/

/-- The fixed allow-list of two-letter country-suffix lines (source line
25). -/
def sufixosPais : List String :=
  ["(BR)", "(CO)", "(PT)", "(RO)", "(BE)", "(MX)", "(UK)", "(ZA)", "(SE)"]

/-- Does the current line carry odds data: `'USD' in linha` together with at
least one digit (source line 33)? -/
def temOddsUSD (l : Str) : Bool := temSub (txt ("USD")) l && l.any ehDigito

/-- Section keywords that veto a continuation line (source line 50). -/
def palavrasChaveSecaoContinuacao : List String :=
  ["aposta total", "mostrar", "use sua", "arredondar", "evento", "chance"]

/-- Is the (stripped) next line a continuation of a line carrying odds data
(source lines 44-51)?  It must be nonempty, contain no significant odds
pattern (`\d+\.\d+` or `\d+\s+USD`), not be a separator glyph, contain no
section keyword, and be longer than 2 characters. -/
def ehContinuacao (prox : Str) : Bool :=
  prox ≠ [] &&
  !(temDecimal prox || temIntUSD prox) &&
  !(prox = txt ("〉") || prox = txt ("○") || prox = txt ("●")) &&
  !(palavrasChaveSecaoContinuacao.any (fun k => temSub k.data (minuscula prox))) &&
  decide (2 < prox.length)

/-- The reassembly pass over the raw line list (source lines 15-61): skip
blank lines; join a line whose successor strips to a country suffix; join a
line carrying odds data with a continuation successor; otherwise emit the
stripped line. -/
def preprocessarLinhas : List Str → List Str
  | [] => []
  | [l] => if pyStrip l = [] then [] else [pyStrip l]
  | l :: prox :: resto =>
    if pyStrip l = [] then preprocessarLinhas (prox :: resto)
    else if sufixosPais.any (fun s => pyStrip prox = s.data) then
      (pyStrip l ++ ' ' :: pyStrip prox) :: preprocessarLinhas resto
    else if temOddsUSD (pyStrip l) && ehContinuacao (pyStrip prox) then
      (pyStrip l ++ ' ' :: pyStrip prox) :: preprocessarLinhas resto
    else pyStrip l :: preprocessarLinhas (prox :: resto)

/-- Python `texto.split('\n')` (empty fields preserved). -/
def dividirNL : Str → List Str
  | [] => [[]]
  | c :: r =>
    if c = '\n' then [] :: dividirNL r
    else
      match dividirNL r with
      | [] => [[c]]
      | h :: t => (c :: h) :: t

/-- Python `'\n'.join(...)`. -/
def juntarNL (ls : List Str) : Str := List.intercalate ['\n'] ls

/-- The reassembler `preprocessar_linhas_quebradas(texto)` (source lines 8-63). -/
def preprocessar_linhas_quebradas (texto : Str) : Str :=
  juntarNL (preprocessarLinhas (dividirNL texto))

/-- Would the reassembler merge the adjacent (already clean) lines `a`,`b`?
Rule 2: `b` strips to a country suffix; rule 3: `a` carries odds data and
`b` is a continuation. -/
def parContinuavel (a b : Str) : Bool :=
  sufixosPais.any (fun s => pyStrip b = s.data) ||
    (temOddsUSD a && ehContinuacao (pyStrip b))

/-- No adjacent pair of the line list would be merged by the reassembler
(scanned pairwise, as a Boolean). -/
def semParesContinuaveis : List Str → Bool
  | [] => true
  | [_] => true
  | a :: b :: r => !(parContinuavel a b) && semParesContinuaveis (b :: r)

/-- On a list of clean lines (each nonempty and strip-invariant) with no
continuable adjacent pair, the reassembly pass is the identity. -/
theorem preprocessarLinhas_fixo :
    ∀ L : List Str,
      (∀ l ∈ L, pyStrip l = l ∧ l ≠ []) →
      semParesContinuaveis L = true →
      preprocessarLinhas L = L := by
  intro L
  induction L with
  | nil => intro _ _; rfl
  | cons l resto ih =>
    intro hlimpo hcadeia
    obtain ⟨hstrip, hne⟩ := hlimpo l (List.mem_cons_self l resto)
    cases resto with
    | nil => simp [preprocessarLinhas, hstrip, hne]
    | cons prox resto2 =>
      have hboth : parContinuavel l prox = false ∧
          semParesContinuaveis (prox :: resto2) = true := by
        simpa [semParesContinuaveis] using hcadeia
      have hpar : parContinuavel l prox = false := hboth.1
      have hsuf : (sufixosPais.any (fun s => pyStrip prox = s.data)) = false :=
        (Bool.or_eq_false_iff.1 hpar).1
      have hcont : (temOddsUSD l && ehContinuacao (pyStrip prox)) = false :=
        (Bool.or_eq_false_iff.1 hpar).2
      have hrec : preprocessarLinhas (prox :: resto2) = prox :: resto2 :=
        ih (fun x hx => hlimpo x (List.mem_cons_of_mem l hx)) hboth.2
      rw [preprocessarLinhas, hstrip]
      rw [if_neg hne, if_neg (by simp [hsuf]), if_neg (by simp [hstrip, hcont]), hrec]

/-- C8: the line reassembler is idempotent on a clean, already-reassembled
line sequence containing no continuable pair: reassembling twice equals
reassembling once (indeed the pass is the identity on such a sequence). -/
theorem c8_reassembler_idempotente (L : List Str)
    (hlimpo : ∀ l ∈ L, pyStrip l = l ∧ l ≠ [])
    (hsemPar : semParesContinuaveis L = true) :
    preprocessarLinhas (preprocessarLinhas L) = preprocessarLinhas L := by
  rw [preprocessarLinhas_fixo L hlimpo hsemPar, preprocessarLinhas_fixo L hlimpo hsemPar]

/-- C8 witness: a concrete reassembled two-line page (a bet line with odds
data followed by a section line) with no continuable pair; the pass is
idempotent on it. -/
theorem c8_witness :
    (∀ l ∈ [txt ("Pinnacle 1.85 50.00 USD 9.25"), txt ("Aposta total")],
        pyStrip l = l ∧ l ≠ []) ∧
    semParesContinuaveis
      [txt ("Pinnacle 1.85 50.00 USD 9.25"), txt ("Aposta total")] = true ∧
    preprocessarLinhas (preprocessarLinhas
        [txt ("Pinnacle 1.85 50.00 USD 9.25"), txt ("Aposta total")]) =
      preprocessarLinhas [txt ("Pinnacle 1.85 50.00 USD 9.25"), txt ("Aposta total")] :=
  ⟨by decide, by decide,
   c8_reassembler_idempotente _ (by decide) (by decide)⟩

/-!  ### The record assembler's leg mapping and early-termination policy
(`extrair_dados_pdf`, source lines 65-390).

Only the parts that the claims address are embedded: the per-page leg
collection and filter (source lines 357-364), the mapping of accepted legs
onto `bet1`/`bet2`/`bet3` (lines 366-374), the early-termination condition
(lines 376-385), and the top-level control flow of `extrair_dados_pdf` and
`main` (lines 101-109, 387-390, 792-817).  The page-internal segmentation
that produces the (house, accumulated text) pairs is taken as the input of
the page step, and the whole page processing is a parameter of the program
skeleton — the claims settled here (C2, C3) are about the control flow
around it, which provably never consults it on the paths in question. -/

/-- One bet slot of the result dictionary (all fields `None` initially). -/
structure BetSlot where
  house : Option Str
  odd : Option PyNum
  type : Option Str
  stake : Option PyNum
  profit : Option PyNum
deriving DecidableEq

/-- The empty bet slot. -/
def slotVazio : BetSlot := ⟨none, none, none, none, none⟩

/-- The result dictionary `dados` (source lines 71-99). -/
structure Dados where
  date : Option Str
  sport : Option Str
  league : Option Str
  teamA : Option Str
  teamB : Option Str
  bet1 : BetSlot
  bet2 : BetSlot
  bet3 : BetSlot
  profitPercentage : Option PyNum
deriving DecidableEq

/-- The initial result dictionary (everything `None`). -/
def dadosIniciais : Dados :=
  ⟨none, none, none, none, none, slotVazio, slotVazio, slotVazio, none⟩

/-- Python `dados['betN'].update(aposta)`: every key of the extracted leg replaces
the slot's field; the house becomes the (always present) house string. -/
def slotDeAposta (a : Aposta) : BetSlot :=
  ⟨some a.house, a.odd, a.type, a.stake, a.profit⟩

/-- Python truthiness of an optional string field (`None` and `''` are
falsy). -/
def strTruthy : Option Str → Bool
  | none => false
  | some s => s ≠ []

/-- Python truthiness of an optional float field (`None` and `0.0` are
falsy). -/
def numTruthy : Option PyNum → Bool
  | none => false
  | some q => q.naoZero

/-- The leg collection of one page (source lines 357-364): each (accumulated
text, detected house) pair is run through the field extractor, and the leg
is kept only when the extracted dict, its house and its odd are all truthy. -/
def coletarApostas (pares : List (Str × Str)) : List Aposta :=
  pares.foldl
    (fun acc par =>
      let aposta := processar_aposta_completa par.1 par.2
      if aposta.house ≠ [] && numTruthy aposta.odd then acc ++ [aposta] else acc)
    []

/-- Mapping the accepted legs onto the record (source lines 366-374). -/
def aplicarApostas (d : Dados) (aps : List Aposta) : Dados :=
  let d1 := match aps.get? 0 with
    | some a => { d with bet1 := slotDeAposta a }
    | none => d
  let d2 := match aps.get? 1 with
    | some a => { d1 with bet2 := slotDeAposta a }
    | none => d1
  match aps.get? 2 with
  | some a => { d2 with bet3 := slotDeAposta a }
  | none => d2

/-- The early-termination condition checked after each page (source lines
376-385): team names and the houses of legs 1 and 2 are truthy, and either
fewer than 3 legs were accepted or leg 3's house is truthy. -/
def terminaCedo (d : Dados) (betsDetectados : Nat) : Bool :=
  strTruthy d.teamA && strTruthy d.teamB &&
    strTruthy d.bet1.house && strTruthy d.bet2.house &&
    (decide (betsDetectados < 3) || strTruthy d.bet3.house)

/-- The tail of one page of `extrair_dados_pdf` (source lines 357-385),
given the (text, house) pairs its segmenter produced: collect and filter
the legs, map them onto the record, and report whether scanning stops. -/
def processarApostasDaPagina (d : Dados) (pares : List (Str × Str)) : Dados × Bool :=
  let aps := coletarApostas pares
  (aplicarApostas d aps, terminaCedo (aplicarApostas d aps) aps.length)

/-- Every accepted leg has a nonempty house and a truthy odd (it survived
the filter at source line 359). -/
theorem coletarApostas_aceites (pares : List (Str × Str)) :
    ∀ a ∈ coletarApostas pares, a.house ≠ [] ∧ numTruthy a.odd = true := by
  have geral :
      ∀ (ps : List (Str × Str)) (acc : List Aposta),
        (∀ a ∈ acc, a.house ≠ [] ∧ numTruthy a.odd = true) →
        ∀ a ∈ ps.foldl
          (fun acc par =>
            let aposta := processar_aposta_completa par.1 par.2
            if aposta.house ≠ [] && numTruthy aposta.odd then acc ++ [aposta] else acc)
          acc,
          a.house ≠ [] ∧ numTruthy a.odd = true := by
    intro ps
    induction ps with
    | nil => intro acc hacc a ha; exact hacc a ha
    | cons p resto ih =>
      intro acc hacc a ha
      simp only [List.foldl_cons] at ha
      by_cases hcond :
          ((processar_aposta_completa p.1 p.2).house ≠ [] &&
            numTruthy (processar_aposta_completa p.1 p.2).odd) = true
      · rw [if_pos hcond] at ha
        refine ih _ ?_ a ha
        intro b hb
        rcases List.mem_append.1 hb with hb | hb
        · exact hacc b hb
        · have hb' : b = processar_aposta_completa p.1 p.2 := by simpa using hb
          subst hb'
          have hcond2 : (processar_aposta_completa p.1 p.2).house ≠ [] ∧
              numTruthy (processar_aposta_completa p.1 p.2).odd = true := by
            simpa using hcond
          exact hcond2
      · rw [if_neg hcond] at ha
        exact ih _ hacc a ha
  intro a ha
  exact geral pares [] (by intro b hb; exact absurd hb (List.not_mem_nil b)) a ha

/-- C3 (amended): when a page yields team names and exactly two *accepted*
legs — in particular when a third leg was present but its extraction failed,
since a failed leg is discarded before counting — the assembler terminates
early after that page: the termination condition
(teams, houses of legs 1 and 2, and fewer than 3 accepted legs) is met.
The unamended claim ("continues scanning") fails, see `c3_counterexample`. -/
theorem c3_terminacao_com_leg_falhada (d : Dados) (pares : List (Str × Str))
    (a1 a2 : Aposta)
    (hA : strTruthy d.teamA = true) (hB : strTruthy d.teamB = true)
    (hcol : coletarApostas pares = [a1, a2]) :
    (processarApostasDaPagina d pares).2 = true := by
  have h1 : a1.house ≠ [] := by
    have := coletarApostas_aceites pares a1 (by rw [hcol]; exact List.mem_cons_self a1 [a2])
    exact this.1
  have h2 : a2.house ≠ [] := by
    have := coletarApostas_aceites pares a2
      (by rw [hcol]; exact List.mem_cons_of_mem a1 (List.mem_cons_self a2 []))
    exact this.1
  show (terminaCedo (aplicarApostas d (coletarApostas pares)) (coletarApostas pares).length) = true
  rw [hcol]
  have hmapa :
      aplicarApostas d [a1, a2] =
        { d with bet1 := slotDeAposta a1, bet2 := slotDeAposta a2 } := rfl
  rw [hmapa]
  show (strTruthy d.teamA && strTruthy d.teamB &&
      strTruthy (slotDeAposta a1).house && strTruthy (slotDeAposta a2).house &&
      (decide ((2 : Nat) < 3) || strTruthy d.bet3.house)) = true
  rw [hA, hB]
  simp [slotDeAposta, strTruthy, h1, h2]

/-- C3 counterexample: a page with three segmented legs — two accepted and a
third whose extraction fails (its text has no decimal, so its odd is `None`)
— together with team names makes the assembler *stop*: only 2 legs are
counted, so the "fewer than 3 legs" branch of the termination condition
fires, contradicting the claim that scanning continues. -/
theorem c3_counterexample :
    (processar_aposta_completa (txt ("Betano Vitória")) (txt ("Betano"))).odd = none ∧
    (coletarApostas
        [(txt ("Pinnacle 1.85 40.00 USD 9.25"), txt ("Pinnacle")),
         (txt ("KTO (BR) 2.10 40.00 USD 5.00"), txt ("KTO (BR)")),
         (txt ("Betano Vitória"), txt ("Betano"))]).length = 2 ∧
    (processarApostasDaPagina
        { dadosIniciais with teamA := some (txt ("Flamengo")), teamB := some (txt ("Vasco")) }
        [(txt ("Pinnacle 1.85 40.00 USD 9.25"), txt ("Pinnacle")),
         (txt ("KTO (BR) 2.10 40.00 USD 5.00"), txt ("KTO (BR)")),
         (txt ("Betano Vitória"), txt ("Betano"))]).2 = true :=
  ⟨by decide, by decide, by decide⟩

/-- C3 witness: a concrete page with team names, two accepted legs and a
failed third leg, to which the amended termination theorem applies. -/
theorem c3_witness :
    strTruthy (some (txt ("Flamengo"))) = true ∧
    coletarApostas
        [(txt ("Pinnacle 1.95 30.00 USD 8.00"), txt ("Pinnacle")),
         (txt ("Betano Empate"), txt ("Betano")),
         (txt ("KTO (BR) 2.05 30.00 USD 6.00"), txt ("KTO (BR)"))] =
      [processar_aposta_completa (txt ("Pinnacle 1.95 30.00 USD 8.00")) (txt ("Pinnacle")),
       processar_aposta_completa (txt ("KTO (BR) 2.05 30.00 USD 6.00")) (txt ("KTO (BR)"))] ∧
    (processarApostasDaPagina
        { dadosIniciais with teamA := some (txt ("Flamengo")), teamB := some (txt ("Vasco")) }
        [(txt ("Pinnacle 1.95 30.00 USD 8.00"), txt ("Pinnacle")),
         (txt ("Betano Empate"), txt ("Betano")),
         (txt ("KTO (BR) 2.05 30.00 USD 6.00"), txt ("KTO (BR)"))]).2 = true :=
  ⟨by decide, by decide,
   c3_terminacao_com_leg_falhada
     { dadosIniciais with teamA := some (txt ("Flamengo")), teamB := some (txt ("Vasco")) }
     [(txt ("Pinnacle 1.95 30.00 USD 8.00"), txt ("Pinnacle")),
      (txt ("Betano Empate"), txt ("Betano")),
      (txt ("KTO (BR) 2.05 30.00 USD 6.00"), txt ("KTO (BR)"))]
     (processar_aposta_completa (txt ("Pinnacle 1.95 30.00 USD 8.00")) (txt ("Pinnacle")))
     (processar_aposta_completa (txt ("KTO (BR) 2.05 30.00 USD 6.00")) (txt ("KTO (BR)")))
     (by decide) (by decide) (by decide)⟩

/-!  ### Top-level control flow (`extrair_dados_pdf` lines 101-109/387-390
and `main` lines 792-817).

The document is modelled as `Except String (List Str)`: opening it either
fails (missing/unreadable/corrupt file — `pdfplumber.open` raises) or
yields the page texts.  The per-page work (lines 110-385) is a parameter of
the skeleton; on the error path it is provably never consulted, which is
exactly the behaviour the claim C2 is about. -/

/-- The page loop (source lines 103-385): at most the first two pages, the
empty page text skipped, and the loop broken when the page step says so. -/
def extrairLoop (pagina : Dados → Str → Dados × Bool) : Dados → List Str → Dados
  | d, [] => d
  | d, p :: resto =>
    if p = [] then extrairLoop pagina d resto
    else
      let passo := pagina d p
      if passo.2 then passo.1 else extrairLoop pagina passo.1 resto

/-- The extractor driver `extrair_dados_pdf(caminho_pdf)` (source lines 65-390): the whole body
runs inside `try`; any exception — including a failing `pdfplumber.open` —
is caught at line 387, a diagnostic is printed, and the function returns
`dados` unchanged (all fields null).  It never re-raises. -/
def extrair_dados_pdf (documento : Except String (List Str))
    (pagina : Dados → Str → Dados × Bool) : Dados :=
  match documento with
  | Except.error _ => dadosIniciais
  | Except.ok paginas => extrairLoop pagina dadosIniciais (paginas.take 2)

/-- What `main` (source lines 792-817) observably does: the record printed
to standard output, whether the printed JSON object carries the `bet3` key,
whether a diagnostic was written to the diagnostic stream, and the exit
status. -/
structure SaidaPrograma where
  dadosSaida : Dados
  incluiBet3 : Bool
  diagnostico : Bool
  exitCode : Nat
deriving DecidableEq

/-- The entry point `main` with a present path argument (source lines 799-817): since
`extrair_dados_pdf` catches every exception internally and `json.dumps` of
the result cannot fail, the `except` branch of `main` (minimal JSON without
`bet3`, exit 1) is unreachable for document errors; the program prints the
full record — `bet3` included — and exits 0.  A diagnostic
(`Erro ao processar PDF`) is written exactly when opening the document
failed. -/
def mainPrograma (documento : Except String (List Str))
    (pagina : Dados → Str → Dados × Bool) : SaidaPrograma :=
  { dadosSaida := extrair_dados_pdf documento pagina
  , incluiBet3 := true
  , diagnostico := match documento with | Except.error _ => true | Except.ok _ => false
  , exitCode := 0 }

/-- C2 (amended): for every invocation whose document cannot be opened, a
diagnostic is written, the *full* JSON object (all fields null, `bet3`
included) is written to standard output, and the process exits with status
0 — the extractor swallows the error at source line 387, so `main`'s
minimal-JSON/exit-1 handler never runs for document errors. -/
theorem c2_saida_em_documento_invalido (mensagem : String)
    (pagina : Dados → Str → Dados × Bool) :
    mainPrograma (Except.error mensagem) pagina =
      { dadosSaida := dadosIniciais
      , incluiBet3 := true
      , diagnostico := true
      , exitCode := 0 } := rfl

/-- C2 counterexample: on a missing document the program exits with status
0 (not 1) and the printed object still carries the `bet3` key (not the
minimal shape omitting it), contradicting the claim. -/
theorem c2_counterexample :
    (mainPrograma (Except.error ("[Errno 2] No such file or directory"))
        (fun d _ => (d, false))).exitCode = 0 ∧
    (mainPrograma (Except.error ("[Errno 2] No such file or directory"))
        (fun d _ => (d, false))).incluiBet3 = true ∧
    (mainPrograma (Except.error ("[Errno 2] No such file or directory"))
        (fun d _ => (d, false))).diagnostico = true ∧
    (0 : Nat) ≠ 1 :=
  ⟨rfl, rfl, rfl, by decide⟩

/-!  ### Specification-level descriptions of the extractor's odd and
fallback-profit rules, and the remaining claims about
`processar_aposta_completa`. -/

/-- The odd rule as the specification words it: collect the decimal numbers
of the descriptive part; scanning from the end, return the first value
within `[1.0, 50.0]`; if none qualifies, fall back to the last decimal
number found; with no decimals there is no odd. -/
def oddEspecificada (texto : Str) : Option PyNum :=
  match ((findallDec (parteAntes texto)).map pyFloat).reverse.find?
      (fun q => (PyNum.mk 1 0).vle q && q.vle (PyNum.mk 50 0)) with
  | some q => some q
  | none => ((findallDec (parteAntes texto)).map pyFloat).getLast?

/-- The fallback-profit rule as implemented: scanning all decimals of the
text from the end, the first value *exactly* different from the stake and
from the odd and below 1000. -/
def profitFallbackExato (texto : Str) (stake odd : Option PyNum) : Option PyNum :=
  ((findallDec texto).map pyFloat).reverse.find?
    (fun q => difereDoOpt q stake && difereDoOpt q odd && q.vlt (PyNum.mk 1000 0))

/-- Does `q` differ from the optional value by at least `0.01`?  (`None`
counts as different — the claim's tolerance reading.) -/
def difereAoMenosCentesimo (q : PyNum) : Option PyNum → Bool
  | none => true
  | some v => !(q.difMenorCentesimo v)

/-- The fallback-profit rule as the claim words it: the first decimal from
the end differing by at least `0.01` from both stake and odd and below
1000. -/
def profitFallbackTolerancia (texto : Str) (stake odd : Option PyNum) : Option PyNum :=
  ((findallDec texto).map pyFloat).reverse.find?
    (fun q => difereAoMenosCentesimo q stake && difereAoMenosCentesimo q odd &&
      q.vlt (PyNum.mk 1000 0))

/-- The odd-selection loop is the `find?` of its predicate over the parsed
values. -/
theorem acharOddRev_como_find :
    ∀ l : List Str,
      acharOddRev l =
        (l.map pyFloat).find? (fun q => (PyNum.mk 1 0).vle q && q.vle (PyNum.mk 50 0)) := by
  intro l
  induction l with
  | nil => rfl
  | cons n r ih =>
    rw [acharOddRev, List.map_cons]
    by_cases hc : ((PyNum.mk 1 0).vle (pyFloat n) && (pyFloat n).vle (PyNum.mk 50 0)) = true
    · rw [if_pos hc]
      simp [List.find?_cons, hc]
    · have hcf : ((PyNum.mk 1 0).vle (pyFloat n) && (pyFloat n).vle (PyNum.mk 50 0)) = false := by
        simpa using hc
      rw [if_neg hc, ih]
      simp [List.find?_cons, hcf]

/-- The fallback-profit loop is the `find?` of its predicate over the
parsed values. -/
theorem acharProfitRev_como_find (stake odd : Option PyNum) :
    ∀ l : List Str,
      acharProfitRev stake odd l =
        (l.map pyFloat).find?
          (fun q => difereDoOpt q stake && difereDoOpt q odd && q.vlt (PyNum.mk 1000 0)) := by
  intro l
  induction l with
  | nil => rfl
  | cons n r ih =>
    rw [acharProfitRev, List.map_cons]
    by_cases hc : (difereDoOpt (pyFloat n) stake && difereDoOpt (pyFloat n) odd &&
        (pyFloat n).vlt (PyNum.mk 1000 0)) = true
    · rw [if_pos hc]
      simp [List.find?_cons, hc]
    · have hcf : (difereDoOpt (pyFloat n) stake && difereDoOpt (pyFloat n) odd &&
          (pyFloat n).vlt (PyNum.mk 1000 0)) = false := by simpa using hc
      rw [if_neg hc, ih]
      simp [List.find?_cons, hcf]

/-- C5: the extracted odd follows the specified rule — decimals of the
descriptive part scanned from the end for the first value in `[1.0, 50.0]`,
else the last decimal — and on `Handicap 1.75 Casa 1.65` (no
currency/bullet) the odd is `1.65`. -/
theorem c5_regra_da_odd :
    (∀ texto casa : Str,
      (processar_aposta_completa texto casa).odd = oddEspecificada texto) ∧
    (processar_aposta_completa (txt ("Handicap 1.75 Casa 1.65")) (txt ("Casa"))).odd
      = some (pyFloat (txt ("1.65"))) := by
  constructor
  · intro texto casa
    show oddExtraida texto = oddEspecificada texto
    unfold oddExtraida oddEspecificada
    rw [← List.map_reverse, List.getLast?_map, List.getLast?_eq_head?_reverse]
    cases hrev : (findallDec (parteAntes texto)).reverse with
    | nil => rfl
    | cons ultimo resto =>
      show (match acharOddRev (ultimo :: resto) with
            | some q => some q
            | none => some (pyFloat ultimo)) =
          (match List.find? (fun q => (PyNum.mk 1 0).vle q && q.vle (PyNum.mk 50 0))
              (List.map pyFloat (ultimo :: resto)) with
            | some q => some q
            | none => Option.map pyFloat (ultimo :: resto).head?)
      rw [acharOddRev_como_find]
      cases hfind : List.find? (fun q => (PyNum.mk 1 0).vle q && q.vle (PyNum.mk 50 0))
          (List.map pyFloat (ultimo :: resto)) with
      | some q => rfl
      | none => rfl
  · decide

/-- C6 (amended): whenever the primary profit path finds nothing (no stake
position or no decimal after it), the extracted profit is the first decimal
from the end that is *exactly* different from the stake and the odd and
below 1000 — exact inequality, not the claimed 0.01 tolerance (see
`c6_counterexample`). -/
theorem c6_fallback_profit_exato (texto casa : Str)
    (hprim : profitPrimario texto = none) :
    (processar_aposta_completa texto casa).profit =
      profitFallbackExato texto (stakeExtraido texto) (oddExtraida texto) := by
  show profitExtraido texto = _
  unfold profitExtraido
  rw [hprim]
  unfold profitFallbackExato
  rw [← List.map_reverse, ← acharProfitRev_como_find]
  cases hach : acharProfitRev (stakeExtraido texto) (oddExtraida texto)
      (findallDec texto).reverse with
  | some q => rfl
  | none => rfl

/-- C6 witness: on `Handicap 0.25 5.00 USD` the primary path fails (after
the stake's repr `5.0` only `0 USD` remains, with no decimal), and the
amended fallback rule applies, yielding `0.25`. -/
theorem c6_witness :
    profitPrimario (txt ("Handicap 0.25 5.00 USD")) = none ∧
    (processar_aposta_completa (txt ("Handicap 0.25 5.00 USD")) (txt ("Casa"))).profit =
      profitFallbackExato (txt ("Handicap 0.25 5.00 USD"))
        (stakeExtraido (txt ("Handicap 0.25 5.00 USD")))
        (oddExtraida (txt ("Handicap 0.25 5.00 USD"))) ∧
    (processar_aposta_completa (txt ("Handicap 0.25 5.00 USD")) (txt ("Casa"))).profit =
      some (pyFloat (txt ("0.25"))) :=
  ⟨by decide, c6_fallback_profit_exato (txt ("Handicap 0.25 5.00 USD")) (txt ("Casa")) (by decide),
   by decide⟩

/-- C6 counterexample: on `9.995 10.00 USD` the fallback fires (no decimal
after the stake repr `10.0`) and the code takes `9.995` as profit even
though it differs from the stake `10.00` (and odd `10.0`) by only `0.005 <
0.01`; the claim's tolerance rule instead yields nothing. -/
theorem c6_counterexample :
    profitPrimario (txt ("9.995 10.00 USD")) = none ∧
    stakeExtraido (txt ("9.995 10.00 USD")) = some (pyFloat (txt ("10.00"))) ∧
    (processar_aposta_completa (txt ("9.995 10.00 USD")) (txt ("Casa"))).profit
      = some (pyFloat (txt ("9.995"))) ∧
    (pyFloat (txt ("9.995"))).difMenorCentesimo (pyFloat (txt ("10.00"))) = true ∧
    profitFallbackTolerancia (txt ("9.995 10.00 USD"))
      (stakeExtraido (txt ("9.995 10.00 USD")))
      (oddExtraida (txt ("9.995 10.00 USD"))) = none :=
  ⟨by decide, by decide, by decide, by decide, by decide⟩

/-- C4 counterexample: on the leg text of the claim the extracted type is
`Mais de gols`, not `Mais de 2.5 gols`: the token `2.5` is dropped. -/
theorem c4_counterexample :
    (processar_aposta_completa (txt ("Pinnacle Mais de 2.5 gols ● 50.00 USD 9.25"))
        (txt ("Pinnacle"))).type = some (txt ("Mais de gols")) ∧
    some (txt ("Mais de gols")) ≠ some (txt ("Mais de 2.5 gols")) :=
  ⟨by decide, by decide⟩

/-- C4 (amended): on `Pinnacle Mais de 2.5 gols ● 50.00 USD 9.25` with
house `Pinnacle`, the tokens `Pinnacle`, `50.00`, `USD` and `9.25` are
excluded, but `2.5` is *also* excluded — it is the only decimal of the
descriptive part and hence the extracted odd (2.5), and its preceding token
`de` is not in the keyword list — so the type is `Mais de gols`. -/
theorem c4_tipo_filtrado :
    (processar_aposta_completa (txt ("Pinnacle Mais de 2.5 gols ● 50.00 USD 9.25"))
        (txt ("Pinnacle"))).odd = some (pyFloat (txt ("2.5"))) ∧
    (processar_aposta_completa (txt ("Pinnacle Mais de 2.5 gols ● 50.00 USD 9.25"))
        (txt ("Pinnacle"))).stake = some (pyFloat (txt ("50.00"))) ∧
    (processar_aposta_completa (txt ("Pinnacle Mais de 2.5 gols ● 50.00 USD 9.25"))
        (txt ("Pinnacle"))).profit = some (pyFloat (txt ("9.25"))) ∧
    ehPalavraChaveTipo (txt ("de")) = false ∧
    (processar_aposta_completa (txt ("Pinnacle Mais de 2.5 gols ● 50.00 USD 9.25"))
        (txt ("Pinnacle"))).type = some (txt ("Mais de gols")) :=
  ⟨by decide, by decide, by decide, by decide, by decide⟩

/-- C7: on `KTO (BR) Vitória ● 100.00 USD 18.50` the extractor finds stake
`100.00` (first `<number> <currency>` pattern) and profit `18.50` (last
decimal after the stake match). -/
theorem c7_stake_e_profit :
    (processar_aposta_completa (txt ("KTO (BR) Vitória ● 100.00 USD 18.50"))
        (txt ("KTO (BR)"))).stake = some (pyFloat (txt ("100.00"))) ∧
    (processar_aposta_completa (txt ("KTO (BR) Vitória ● 100.00 USD 18.50"))
        (txt ("KTO (BR)"))).profit = some (pyFloat (txt ("18.50"))) :=
  ⟨by decide, by decide⟩

/-- C10: the extractor returns exactly the house it was given — it never
canonicalizes, rewrites or nulls the argument. -/
theorem c10_house_preservada (texto casa : Str) :
    (processar_aposta_completa texto casa).house = casa := rfl

/-- The digit folder never turns a nonnegative accumulator negative. -/
theorem pyFloatGo_man_nonneg :
    ∀ (s : Str) (acc : Int) (ponto : Bool) (e : Nat), 0 ≤ acc →
      0 ≤ (pyFloatGo s acc ponto e).man := by
  intro s
  induction s with
  | nil => intro acc ponto e h; exact h
  | cons c r ih =>
    intro acc ponto e h
    rw [pyFloatGo]
    by_cases hc : c = '.'
    · rw [if_pos hc]; exact ih acc true e h
    · rw [if_neg hc]
      refine ih _ _ _ ?_
      have h10 : 0 ≤ acc * 10 := by positivity
      have hdig : (0 : Int) ≤ Int.ofNat (c.toNat - 48) := Int.ofNat_nonneg _
      omega

/-- The parse `pyFloat` of a string that does not begin with a minus sign has a
nonnegative mantissa. -/
theorem pyFloat_nonneg_sem_menos :
    ∀ (x : Str), x.head? ≠ some '-' → 0 ≤ (pyFloat x).man := by
  intro x hx
  cases x with
  | nil => exact pyFloatGo_man_nonneg [] 0 false 0 le_rfl
  | cons c r =>
    have hc : c ≠ '-' := by
      intro h
      refine hx ?_
      rw [h]
      rfl
    rw [pyFloat, if_neg hc]
    exact pyFloatGo_man_nonneg (c :: r) 0 false 0 le_rfl

/-- Every match of `\d+\.\d+` begins with a digit. -/
theorem tentarDecimal_estrutura {s m resto : Str}
    (h : tentarDecimal s = some (m, resto)) :
    ∃ c r, m = c :: r ∧ ehDigito c = true := by
  unfold tentarDecimal at h
  by_cases h1 : s.takeWhile ehDigito = []
  · rw [if_pos h1] at h; cases h
  · rw [if_neg h1] at h
    split at h
    · next r2 heq =>
      by_cases h2 : r2.takeWhile ehDigito = []
      · rw [if_pos h2] at h; cases h
      · rw [if_neg h2] at h
        have hpar : s.takeWhile ehDigito ++ '.' :: r2.takeWhile ehDigito = m ∧
            r2.drop (r2.takeWhile ehDigito).length = resto := by
          simpa using h
        rcases hd : s.takeWhile ehDigito with _ | ⟨c, r⟩
        · exact absurd hd h1
        · refine ⟨c, r ++ '.' :: r2.takeWhile ehDigito, ?_, ?_⟩
          · rw [← hpar.1, hd, List.cons_append]
          · exact List.mem_takeWhile_imp (l := s) (by rw [hd]; exact List.mem_cons_self c r)
    · cases h

/-- Every string emitted by the decimal scan parses to a nonnegative
value. -/
theorem findallDecGo_nonneg :
    ∀ (f : Nat) (s x : Str), x ∈ findallDecGo f s → 0 ≤ (pyFloat x).man := by
  intro f
  induction f with
  | zero => intro s x hx; simp [findallDecGo] at hx
  | succ f ih =>
    intro s x hx
    cases s with
    | nil => simp [findallDecGo] at hx
    | cons c r =>
      rw [findallDecGo] at hx
      cases htd : tentarDecimal (c :: r) with
      | none => rw [htd] at hx; exact ih r x hx
      | some par =>
        rw [htd] at hx
        obtain ⟨pm, pr⟩ := par
        rcases List.mem_cons.1 hx with hx1 | hx2
        · obtain ⟨c0, r0, hm, hdig⟩ := tentarDecimal_estrutura htd
          subst hx1
          rw [hm]
          refine pyFloat_nonneg_sem_menos (c0 :: r0) ?_
          intro hhead
          have hc0 : c0 = '-' := by simpa using hhead
          subst hc0
          simp [ehDigito] at hdig
        · exact ih pr x hx2

/-- A value found by the fallback-profit loop is the parse of one of the
scanned decimals. -/
theorem acharProfitRev_origem (stake odd : Option PyNum) :
    ∀ (l : List Str) (p : PyNum), acharProfitRev stake odd l = some p →
      ∃ n ∈ l, p = pyFloat n := by
  intro l
  induction l with
  | nil => intro p h; cases h
  | cons n r ih =>
    intro p h
    rw [acharProfitRev] at h
    by_cases hc : (difereDoOpt (pyFloat n) stake && difereDoOpt (pyFloat n) odd &&
        (pyFloat n).vlt (PyNum.mk 1000 0)) = true
    · rw [if_pos hc] at h
      have hp : pyFloat n = p := by simpa using h
      exact ⟨n, List.mem_cons_self n r, hp.symm⟩
    · rw [if_neg hc] at h
      obtain ⟨m, hm, hp⟩ := ih p h
      exact ⟨m, List.mem_cons_of_mem n hm, hp⟩

/-- A primary-path profit is the parse of a decimal found after the stake
position, hence nonnegative. -/
theorem profitPrimario_nonneg (texto : Str) (p : PyNum)
    (h : profitPrimario texto = some p) : 0 ≤ p.man := by
  unfold profitPrimario at h
  split at h
  · cases h
  · next s0 heqs =>
    split at h
    · split at h
      · next i heqf =>
        split at h
        · cases h
        · next ultimo resto heqr =>
          have hp : pyFloat ultimo = p := by simpa using h
          have hmem : ultimo ∈ findallDec (texto.drop (i + (reprFloat s0).length)) := by
            rw [← List.mem_reverse, heqr]
            exact List.mem_cons_self ultimo resto
          rw [← hp]
          exact findallDecGo_nonneg _ _ ultimo hmem
      · cases h
    · cases h

/-- C9: whenever the field extractor returns a profit, its value is
nonnegative — both the primary path (last decimal after the stake) and the
fallback scan only ever parse unsigned decimal literals. -/
theorem c9_profit_nao_negativo (texto casa : Str) (p : PyNum)
    (h : (processar_aposta_completa texto casa).profit = some p) :
    0 ≤ p.toRat := by
  have hman : 0 ≤ p.man := by
    have h' : profitExtraido texto = some p := h
    unfold profitExtraido at h'
    split at h'
    · exact profitPrimario_nonneg texto p h'
    · next hfalso =>
      split at h'
      · next q heqa =>
        have hq : q = p := by simpa using h'
        subst hq
        obtain ⟨n, hn, hqn⟩ := acharProfitRev_origem _ _ _ q heqa
        rw [hqn]
        exact findallDecGo_nonneg _ _ n (List.mem_reverse.1 hn)
      · rw [h'] at hfalso
        have hfz : p.naoZero = false := by simpa using hfalso
        have hz : p.man = 0 := by simpa [PyNum.naoZero] using hfz
        omega
  unfold PyNum.toRat
  apply div_nonneg
  · exact_mod_cast hman
  · positivity

/-- C9 witness: a concrete leg whose extracted profit is `18.50`, which the
theorem proves nonnegative. -/
theorem c9_witness :
    (processar_aposta_completa (txt ("KTO (BR) Vitória ● 100.00 USD 18.50"))
        (txt ("KTO (BR)"))).profit = some (pyFloat (txt ("18.50"))) ∧
    0 ≤ (pyFloat (txt ("18.50"))).toRat :=
  ⟨by decide,
   c9_profit_nao_negativo (txt ("KTO (BR) Vitória ● 100.00 USD 18.50"))
     (txt ("KTO (BR)")) (pyFloat (txt ("18.50"))) (by decide)⟩
